import Mathlib

/-!
# Flow Hydration customer widget: session store and cart sync

A shallow embedding of `assets/js/customerAuth.js`.

* `localStorage` is a record `Storage` with the three keys the module uses.
* A `World` is the storage together with the HTTP requests issued so far, the
  `cartUpdated` events dispatched so far, and the calls of `syncCartToServer` that
  were not awaited and whose reply is still to be handled, all in the order they
  happened.
* What the server does is an argument of each operation: a `Reply` is either a
  rejected `fetch` or a response with a status and a body; the body is `none`
  when `response.json()` rejects.
* An `async` function returns an `Outcome`: the world it leaves behind and the
  value its promise resolves with, `none` when the promise rejects.
* JavaScript numbers are modelled by `Int` (quantities and prices are exact
  integers); fields that hold a string or are absent are `Option String`.
* One operation runs at a time: no other handler touches `localStorage` while a
  call is suspended on the network.
* The login modal is a record `Flow` of the module variables and of the parts of
  the DOM the handlers read and write; a `Page` is a `World` with a `Flow`.
  Handlers are functions on pages, callbacks of `setTimeout` are recorded, and the
  callback of `setInterval` runs once per `tick`.
-/

namespace CustomerAuth

/-! ## Values -/

/-- Truthiness of a field that holds a string or is absent: `undefined` and the
empty string are falsy. -/
def truthy : Option String → Bool
  | some s => s != ""
  | none => false

/-- The operator `a || b` on two string-or-absent fields. -/
def orElseStr (a b : Option String) : Option String :=
  if truthy a then a else b

/-- The expression `item.quantity || 1`: an absent or zero quantity gives 1. -/
def quantityOrOne : Option Int → Int
  | some q => if q = 0 then 1 else q
  | none => 1

/-- The object handed to `addToCart`; a field that is not set is `none`. -/
structure Item where
  productId : Option String := none
  id : Option String := none
  productSlug : Option String := none
  slug : Option String := none
  name : Option String := none
  flavour : Option String := none
  selectedFlavour : Option String := none
  quantity : Option Int := none
  price : Option Int := none
  image : Option String := none
deriving DecidableEq, Repr

/-- A line of the cart as `addToCart` builds it and as JSON keeps it: a property
whose value is `undefined` is dropped by `JSON.stringify` and reads back as
`undefined`, so the round trip through `localStorage` is the identity. -/
structure CartItem where
  productId : Option String := none
  productSlug : Option String := none
  name : Option String := none
  flavour : Option String := none
  quantity : Int
  price : Option Int := none
  image : Option String := none
deriving DecidableEq, Repr

abbrev Cart := List CartItem

/-- The cached customer profile. -/
structure Customer where
  id : Option String := none
  name : Option String := none
  mobile : Option String := none
deriving DecidableEq, Repr

/-! ## Storage, requests and replies -/

/-- What `localStorage` holds under `CART_KEY`: nothing, the JSON text of a cart,
or the text `undefined` that `saveLocalCart(undefined)` leaves there (which
`JSON.parse` rejects). -/
inductive CartSlot where
  | missing
  | text (cart : Cart)
  | garbled
deriving DecidableEq, Repr

/-- The three `localStorage` keys of the module. -/
structure Storage where
  token : Option String := none
  customer : Option Customer := none
  cart : CartSlot := CartSlot.missing
deriving DecidableEq, Repr

inductive Method where
  | GET
  | POST
  | PUT
  | DELETE
deriving DecidableEq, Repr

/-- The JSON body of a request. -/
inductive Payload where
  | empty
  | cart (cart : Cart)
  | name (name : String)
  | sendOtp (mobile channel : String)
  | verifyOtp (mobile otp : String) (name : Option String)
deriving DecidableEq, Repr

/-- A call of `fetch`: the path is relative to `API_BASE`, `authorization` is the
bearer token of the `Authorization` header when one is sent. -/
structure Request where
  method : Method
  path : String
  authorization : Option String
  payload : Payload
deriving DecidableEq, Repr

/-- The storage, the requests issued, the `cartUpdated` events dispatched, and the
carts of the `PUT`s that `addToCart` and `updateCartItem` issued through a call of
`syncCartToServer` they did not await and whose reply has not been handled yet. -/
structure World where
  store : Storage := {}
  requests : List Request := []
  cartUpdated : List (Option Cart) := []
  detached : List Cart := []
deriving DecidableEq, Repr

/-- What comes back from `fetch`: the promise rejects, or a response arrives; its
body is `none` when `response.json()` rejects. -/
inductive Reply (β : Type) where
  | throws
  | response (status : Nat) (body : Option β)
deriving DecidableEq, Repr

/-- The property `response.ok`: a status from 200 to 299. -/
def isOk (status : Nat) : Bool :=
  decide (200 ≤ status) && decide (status ≤ 299)

/-- The parsed body of `GET /cart` and `PUT /cart`; `cart` is `none` when the
object has no `cart` property. -/
structure CartBody where
  cart : Option Cart := none
deriving DecidableEq, Repr

/-- The parsed body of the profile endpoints; `customer` is `none` when the
object has no `customer` property, `message` is the text an error reply carries. -/
structure CustomerBody where
  customer : Option Customer := none
  message : Option String := none
deriving DecidableEq, Repr

/-- The result of an `async` function: the world afterwards and the value the
promise resolves with (`none`: the promise rejects). -/
structure Outcome (α : Type) where
  world : World
  value : Option α
deriving DecidableEq, Repr

/-- Record one call of `fetch`. -/
def World.send (w : World) (r : Request) : World :=
  { w with requests := w.requests ++ [r] }

/-! ## Token management -/

def getToken (s : Storage) : Option String :=
  s.token

def setToken (s : Storage) (token : String) : Storage :=
  { s with token := some token }

def removeToken (s : Storage) : Storage :=
  { s with token := none, customer := none }

def getCustomer (s : Storage) : Option Customer :=
  s.customer

def setCustomer (s : Storage) (customer : Customer) : Storage :=
  { s with customer := some customer }

def isLoggedIn (s : Storage) : Bool :=
  truthy (getToken s)

/-- The bearer token of the `Authorization` header, `none` for no header. -/
def getAuthHeaders (s : Storage) : Option String :=
  if truthy (getToken s) then getToken s else none

/-! ## API calls -/

def checkAuth (w : World) (reply : Reply CustomerBody) : Outcome Bool :=
  if !truthy (getToken w.store) then ⟨w, some false⟩
  else
    let w1 := w.send ⟨Method.GET, "/check-auth", getToken w.store, Payload.empty⟩
    match reply with
    | Reply.throws => ⟨{ w1 with store := removeToken w1.store }, some false⟩
    | Reply.response status body =>
      if !isOk status then ⟨{ w1 with store := removeToken w1.store }, some false⟩
      else
        match body with
        | none => ⟨{ w1 with store := removeToken w1.store }, some false⟩
        | some data =>
          match data.customer with
          | some c => ⟨{ w1 with store := setCustomer w1.store c }, some true⟩
          | none => ⟨w1, some true⟩

def getProfile (w : World) (reply : Reply CustomerBody) : Outcome CustomerBody :=
  let w1 := w.send ⟨Method.GET, "/profile", getAuthHeaders w.store, Payload.empty⟩
  match reply with
  | Reply.throws => ⟨w1, none⟩
  | Reply.response status body =>
    if !isOk status then
      if status = 401 then ⟨{ w1 with store := removeToken w1.store }, none⟩
      else ⟨w1, none⟩
    else
      match body with
      | none => ⟨w1, none⟩
      | some data =>
        match data.customer with
        | some c => ⟨{ w1 with store := setCustomer w1.store c }, some data⟩
        | none => ⟨w1, some data⟩

def updateName (w : World) (name : String) (reply : Reply CustomerBody) :
    Outcome CustomerBody :=
  let w1 := w.send ⟨Method.POST, "/update-name", getAuthHeaders w.store, Payload.name name⟩
  match reply with
  | Reply.throws => ⟨w1, none⟩
  | Reply.response status body =>
    match body with
    | none => ⟨w1, none⟩
    | some data =>
      if !isOk status then ⟨w1, none⟩
      else
        match data.customer with
        | some c => ⟨{ w1 with store := setCustomer w1.store c }, some data⟩
        | none => ⟨w1, some data⟩

/-! ## Cart store -/

/-- The local cart; `none` when `JSON.parse` throws on what is stored. -/
def getLocalCart (s : Storage) : Option Cart :=
  match s.cart with
  | CartSlot.missing => some []
  | CartSlot.text cart => some cart
  | CartSlot.garbled => none

/-- Store the cart and dispatch `cartUpdated`; `none` is the call
`saveLocalCart(undefined)`. -/
def saveLocalCart (w : World) (cart : Option Cart) : World :=
  { w with
    store := { w.store with
      cart := match cart with
        | some c => CartSlot.text c
        | none => CartSlot.garbled }
    cartUpdated := w.cartUpdated ++ [cart] }

/-! ## Cart sync -/

/-- The argument `cart` is `none` for the default `null`; the value is
`some none` when the function returns `undefined`. -/
def syncCartToServer (w : World) (cart : Option Cart) (reply : Reply CartBody) :
    Outcome (Option Cart) :=
  if !isLoggedIn w.store then
    match cart with
    | some c => ⟨saveLocalCart w (some c), some none⟩
    | none => ⟨w, some none⟩
  else
    match (match cart with
      | some c => some c
      | none => getLocalCart w.store) with
    | none => ⟨w, none⟩
    | some cartToSync =>
      let w1 := w.send ⟨Method.PUT, "/cart", getAuthHeaders w.store, Payload.cart cartToSync⟩
      match reply with
      | Reply.throws => ⟨w1, some (some cartToSync)⟩
      | Reply.response status body =>
        if isOk status then
          match body with
          | none => ⟨w1, some (some cartToSync)⟩
          | some data => ⟨saveLocalCart w1 data.cart, some data.cart⟩
        else ⟨w1, some (some cartToSync)⟩

/-- The first reply answers the `GET`, the second the `PUT` of the push branch. -/
def fetchCart (w : World) (getReply putReply : Reply CartBody) : Outcome Cart :=
  if !isLoggedIn w.store then ⟨w, getLocalCart w.store⟩
  else
    let w1 := w.send ⟨Method.GET, "/cart", getAuthHeaders w.store, Payload.empty⟩
    match getReply with
    | Reply.throws => ⟨w1, getLocalCart w1.store⟩
    | Reply.response status body =>
      if !isOk status then ⟨w1, getLocalCart w1.store⟩
      else
        match body with
        | none => ⟨w1, getLocalCart w1.store⟩
        | some data =>
          let serverCart := data.cart.getD []
          match getLocalCart w1.store with
          | none => ⟨w1, getLocalCart w1.store⟩
          | some localCart =>
            if decide (localCart.length > 0) && decide (serverCart.length = 0) then
              let r := syncCartToServer w1 (some localCart) putReply
              match r.value with
              | none => ⟨r.world, getLocalCart r.world.store⟩
              | some _ => ⟨r.world, some localCart⟩
            else ⟨saveLocalCart w1 (some serverCart), some serverCart⟩

def initCart (w : World) (getReply putReply : Reply CartBody) : Outcome Cart :=
  if isLoggedIn w.store then fetchCart w getReply putReply
  else ⟨w, getLocalCart w.store⟩

/-! ## Cart operations

`addToCart` and `updateCartItem` call `syncCartToServer(cart)` without awaiting
it: the `PUT` is issued before they return and the call is recorded in
`detached`; its reply is handled later, by the part of `syncCartToServer` after
the `fetch`, which is `resumeSync`. The world an operation returns is the world
at its return; whatever runs next starts from it, be it another operation or
`resumeSync` with the reply. -/

/-- The method `Array.prototype.findIndex`; `none` stands for `-1`. -/
def findIndex (p : CartItem → Bool) : Cart → Option Nat
  | [] => none
  | x :: xs => if p x then some 0 else (findIndex p xs).map (· + 1)

def addToCart (w : World) (item : Item) : Outcome Cart :=
  match getLocalCart w.store with
  | none => ⟨w, none⟩
  | some cart =>
    let cart1 :=
      match findIndex
        (fun i => i.productSlug == item.productSlug && i.flavour == item.flavour) cart with
      | some k =>
        cart.modify (fun e => { e with quantity := e.quantity + quantityOrOne item.quantity }) k
      | none =>
        cart ++ [{
          productId := orElseStr item.productId item.id
          productSlug := orElseStr item.productSlug item.slug
          name := item.name
          flavour := orElseStr item.flavour item.selectedFlavour
          quantity := quantityOrOne item.quantity
          price := item.price
          image := item.image }]
    let w1 := saveLocalCart w (some cart1)
    if isLoggedIn w1.store then
      ⟨{ w1.send ⟨Method.PUT, "/cart", getAuthHeaders w1.store, Payload.cart cart1⟩ with
          detached := w1.detached ++ [cart1] }, some cart1⟩
    else ⟨w1, some cart1⟩

def updateCartItem (w : World) (index quantity : Int) : Outcome Cart :=
  match getLocalCart w.store with
  | none => ⟨w, none⟩
  | some cart =>
    if index < 0 ∨ index ≥ cart.length then ⟨w, some cart⟩
    else
      let cart1 :=
        if quantity ≤ 0 then cart.eraseIdx index.toNat
        else cart.modify (fun e => { e with quantity := quantity }) index.toNat
      let w1 := saveLocalCart w (some cart1)
      if isLoggedIn w1.store then
        ⟨{ w1.send ⟨Method.PUT, "/cart", getAuthHeaders w1.store, Payload.cart cart1⟩ with
            detached := w1.detached ++ [cart1] }, some cart1⟩
      else ⟨w1, some cart1⟩

def removeFromCart (w : World) (index : Int) : Outcome Cart :=
  updateCartItem w index 0

/-- The part of `syncCartToServer` after `await fetch`, for the oldest call that was
not awaited: a 2xx reply whose body parses makes it store the `cart` of the body,
every other reply is swallowed. Nothing happens when no call is pending. -/
def resumeSync (w : World) (reply : Reply CartBody) : World :=
  match w.detached with
  | [] => w
  | _ :: rest =>
    let w1 := { w with detached := rest }
    match reply with
    | Reply.throws => w1
    | Reply.response status body =>
      if isOk status then
        match body with
        | none => w1
        | some data => saveLocalCart w1 data.cart
      else w1

/-- The reply to the `DELETE` is awaited and then ignored, whatever it is. -/
def clearCart (w : World) (reply : Reply Unit) : Outcome Cart :=
  let w1 := saveLocalCart w (some [])
  if isLoggedIn w1.store then
    let w2 := w1.send ⟨Method.DELETE, "/cart", getAuthHeaders w1.store, Payload.empty⟩
    match reply with
    | Reply.throws => ⟨w2, some []⟩
    | Reply.response _ _ => ⟨w2, some []⟩
  else ⟨w1, some []⟩

/-! ## Reference behaviour and sample data -/

/-- The identity key of a cart line. -/
def identityKey (e : CartItem) : Option String × Option String :=
  (e.productSlug, e.flavour)

/-- No two lines of the cart share an identity key. -/
def uniqueKeys (c : Cart) : Prop :=
  (c.map identityKey).Nodup

instance (c : Cart) : Decidable (uniqueKeys c) := by
  unfold uniqueKeys
  infer_instance

/-- The cart `updateCartItem` is specified to store and return: unchanged for an
index out of range, without the entry at the index for a quantity that is not
positive, and otherwise with the quantity of that entry replaced. -/
def updateCartItemRef (C : Cart) (i q : Int) : Cart :=
  if i < 0 ∨ i ≥ C.length then C
  else if q ≤ 0 then C.take i.toNat ++ C.drop (i.toNat + 1)
  else
    match C.get? i.toNat with
    | some e => C.take i.toNat ++ [{ e with quantity := q }] ++ C.drop (i.toNat + 1)
    | none => C

/-- A stored cart with one line, keyed by its primary fields. -/
def lemonCart : Cart :=
  [{ productSlug := some "electrolyte", flavour := some "lemon", quantity := 1 }]

/-- A second line, for another flavour of the same product. -/
def berryLine : CartItem :=
  { productSlug := some "electrolyte", flavour := some "berry", quantity := 3 }

/-- An item with its product and flavour in the primary fields. -/
def berryItem : Item :=
  { productSlug := some "electrolyte", flavour := some "berry", quantity := some 1 }

/-- The product and flavour of `lemonCart`, carried in the fallback fields. -/
def lemonFallbackItem : Item :=
  { slug := some "electrolyte", selectedFlavour := some "lemon" }

/-- An item whose `productSlug` is the empty string. -/
def emptySlugItem : Item :=
  { productSlug := some "", flavour := some "lemon", quantity := some 1 }

/-- An item of a product without flavours, whose `flavour` is the empty string. -/
def emptyFlavourItem : Item :=
  { productSlug := some "electrolyte", flavour := some "", quantity := some 1 }

/-- A world with `lemonCart` stored and nobody logged in. -/
def lemonWorld : World :=
  { store := { cart := CartSlot.text lemonCart } }

/-- A world with a cart of two lines stored and nobody logged in. -/
def twoLineWorld : World :=
  { store := { cart := CartSlot.text (lemonCart ++ [berryLine]) } }

/-- A world with `lemonCart` stored and a session token. -/
def lemonSession : World :=
  { store := { token := some "tok", cart := CartSlot.text lemonCart } }

/-! ## Cart reducers -/

/-- The sum of `price * quantity` over the given cart, or over the local cart when
none is given. The outer `none` is a thrown `JSON.parse`; the inner `none` is
`NaN`, which is what a line without a price makes of the sum. -/
def getCartTotal (s : Storage) (cart : Option Cart) : Option (Option Int) :=
  match (match cart with
    | some c => some c
    | none => getLocalCart s) with
  | none => none
  | some items =>
    some (items.foldl
      (fun total item =>
        match total, item.price with
        | some t, some p => some (t + p * item.quantity)
        | _, _ => none)
      (some 0))

/-- The sum of the quantities; `none` is a thrown `JSON.parse`. -/
def getCartCount (s : Storage) (cart : Option Cart) : Option Int :=
  match (match cart with
    | some c => some c
    | none => getLocalCart s) with
  | none => none
  | some items => some (items.foldl (fun count item => count + item.quantity) 0)

/-! ## Text -/

/-- The property `length` of a string: its number of UTF-16 code units. -/
def jsLength (s : String) : Nat :=
  (s.toList.map fun c => if c.toNat < 65536 then 1 else 2).sum

/-- The characters `String.prototype.trim` removes: white space and line
terminators. -/
def isJsSpace (c : Char) : Bool :=
  c.toNat ∈ [9, 10, 11, 12, 13, 32, 160, 5760, 8232, 8233, 8239, 8287, 12288, 65279]
    || (decide (8192 ≤ c.toNat) && decide (c.toNat ≤ 8202))

/-- The method `String.prototype.trim`. -/
def jsTrim (s : String) : String :=
  String.mk ((s.toList.dropWhile isJsSpace).reverse.dropWhile isJsSpace).reverse

/-- The test of the regular expression `^[6-9]\d{9}$`. -/
def matchesIndianMobile (s : String) : Bool :=
  match s.toList with
  | [] => false
  | c :: rest =>
    (decide ('6' ≤ c) && decide (c ≤ '9')) && decide (rest.length = 9) && rest.all Char.isDigit

/-- The text `showError` displays: a string of the program or of the server, or the
message of an error the browser threw (a failed `fetch`, a body that does not
parse, a `TypeError`). -/
inductive ErrorText where
  | text (s : String)
  | native
deriving DecidableEq, Repr

/-- How a promise settles: with a value, or with a thrown error. -/
inductive Settled (β : Type) where
  | resolved (value : β)
  | rejected (error : ErrorText)
deriving DecidableEq, Repr

/-- The parsed body of `POST /send-otp`. -/
structure OtpBody where
  isNewCustomer : Bool := false
  otp : Option String := none
  message : Option String := none
deriving DecidableEq, Repr

/-- The parsed body of `POST /verify-otp`. -/
structure VerifyBody where
  token : Option String := none
  customer : Option Customer := none
  needsName : Bool := false
  message : Option String := none
deriving DecidableEq, Repr

/-- A call made from a handler: the world afterwards and how the promise settled. -/
structure Attempt (β : Type) where
  world : World
  result : Settled β
deriving DecidableEq, Repr

/-- The expression `data.message || fallback`. -/
def messageOr (message : Option String) (fallback : String) : ErrorText :=
  if truthy message then ErrorText.text (message.getD fallback) else ErrorText.text fallback

def sendOTP (w : World) (mobile channel : String) (reply : Reply OtpBody) : Attempt OtpBody :=
  let w1 := w.send ⟨Method.POST, "/send-otp", none, Payload.sendOtp mobile channel⟩
  match reply with
  | Reply.throws => ⟨w1, Settled.rejected ErrorText.native⟩
  | Reply.response status body =>
    match body with
    | none => ⟨w1, Settled.rejected ErrorText.native⟩
    | some data =>
      if !isOk status then ⟨w1, Settled.rejected (messageOr data.message "Failed to send OTP")⟩
      else ⟨w1, Settled.resolved data⟩

def verifyOTP (w : World) (mobile otp : String) (name : Option String)
    (reply : Reply VerifyBody) : Attempt VerifyBody :=
  let w1 := w.send ⟨Method.POST, "/verify-otp", none,
    Payload.verifyOtp mobile otp (if truthy name then name else none)⟩
  match reply with
  | Reply.throws => ⟨w1, Settled.rejected ErrorText.native⟩
  | Reply.response status body =>
    match body with
    | none => ⟨w1, Settled.rejected ErrorText.native⟩
    | some data =>
      if !isOk status then ⟨w1, Settled.rejected (messageOr data.message "Verification failed")⟩
      else ⟨w1, Settled.resolved data⟩

/-- The error `updateName` throws, for a reply on which it throws. -/
def updateNameError (reply : Reply CustomerBody) : ErrorText :=
  match reply with
  | Reply.throws => ErrorText.native
  | Reply.response _ body =>
    match body with
    | none => ErrorText.native
    | some data => messageOr data.message "Failed to update name"

/-! ## More reference behaviour and sample data -/

/-- Every line of the cart has a quantity of at least 1. -/
def positiveQuantities (c : Cart) : Prop :=
  ∀ e ∈ c, 1 ≤ e.quantity

instance (c : Cart) : Decidable (positiveQuantities c) := by
  unfold positiveQuantities
  infer_instance

/-- The cart of the specification's example for the reducers. -/
def pricedCart : Cart :=
  [{ price := some 10, quantity := 2 }, { price := some 5, quantity := 1 }]

/-- The line of `lemonCart`, with a negative quantity. -/
def negativeLemonItem : Item :=
  { productSlug := some "electrolyte", flavour := some "lemon", quantity := some (-5) }

/-- A new line with a negative quantity. -/
def negativeBerryItem : Item :=
  { productSlug := some "electrolyte", flavour := some "berry", quantity := some (-1) }

/-! ## Login flow

The modal that `createLoginModal` builds is taken to exist, with one of the two
channel radios checked. The profile buttons that `updateAuthUI` redraws are
outside the modal and are not tracked. A callback passed to `showModal` is a name;
calling it is recorded and changes nothing else. Time is a sequence of `tick`s of
one second. -/

/-- The inputs that can hold the focus. -/
inductive Field where
  | mobile
  | otpDigit (index : Nat)
  | name
deriving DecidableEq, Repr

/-- The callbacks the module hands to `setTimeout`. -/
inductive Deferred where
  | focusMobile
  | focusFirstDigit
  | focusName
  | hideError
  | resetModal
deriving DecidableEq, Repr

/-- The buttons `setButtonLoading` is called on. -/
inductive Button where
  | btnSendOTP
  | btnVerifyOTP
  | btnSaveName
deriving DecidableEq, Repr

/-- A running `setInterval` of `startResendTimer`: its handle and the variable
`seconds` of its closure. -/
structure Countdown where
  id : Nat
  seconds : Int
deriving DecidableEq, Repr

/-- The state of the module and of the modal. `resendTimer` is the number shown in
the element `#resendTimer`, `none` once `btnResend.innerHTML = 'Resend OTP'` has
removed that element from the document. The default value is the modal as
`createLoginModal` builds it. -/
structure Flow where
  currentMobile : String := ""
  isNewCustomer : Bool := false
  onLoginSuccess : Option String := none
  resendTimerInterval : Option Nat := none
  modalShown : Bool := false
  scrollLocked : Bool := false
  loginMobile : String := ""
  otpChannel : String := "whatsapp"
  otpDigits : List String := ["", "", "", "", "", ""]
  loginName : String := ""
  stepMobile : Bool := true
  stepOTP : Bool := false
  stepName : Bool := false
  errorShown : Bool := false
  errorText : Option ErrorText := none
  otpMobileDisplay : String := ""
  resendTimer : Option Int := some 60
  resendDisabled : Bool := true
  loading : List Button := []
  focus : Option Field := none
  countdowns : List Countdown := []
  nextTimerId : Nat := 1
  timeouts : List (Nat × Deferred) := []
  invoked : List (String × Option Customer) := []
  toasts : List String := []
deriving DecidableEq, Repr

/-- The storage and network on one side, the module and modal on the other. -/
structure Page where
  world : World := {}
  ui : Flow := {}
deriving DecidableEq, Repr

def showModal (u : Flow) (callback : Option String) : Flow :=
  { u with
    onLoginSuccess := callback
    modalShown := true
    scrollLocked := true
    timeouts := u.timeouts ++ [(300, Deferred.focusMobile)] }

def closeModal (u : Flow) : Flow :=
  { u with
    modalShown := false
    scrollLocked := false
    timeouts := u.timeouts ++ [(300, Deferred.resetModal)] }

def resetModal (u : Flow) : Flow :=
  { u with
    currentMobile := ""
    isNewCustomer := false
    loginMobile := ""
    loginName := ""
    otpDigits := u.otpDigits.map fun _ => ""
    stepMobile := true
    stepOTP := false
    stepName := false
    errorShown := false }

def showError (u : Flow) (message : ErrorText) : Flow :=
  { u with
    errorText := some message
    errorShown := true
    timeouts := u.timeouts ++ [(5000, Deferred.hideError)] }

def setButtonLoading (u : Flow) (btnId : Button) (loading : Bool) : Flow :=
  if loading then { u with loading := btnId :: u.loading.filter fun b => b != btnId }
  else { u with loading := u.loading.filter fun b => b != btnId }

def goToMobileStep (u : Flow) : Flow :=
  { u with
    stepMobile := true
    stepOTP := false
    stepName := false
    errorShown := false
    timeouts := u.timeouts ++ [(100, Deferred.focusMobile)] }

def goToNameStep (u : Flow) : Flow :=
  { u with
    stepMobile := false
    stepOTP := false
    stepName := true
    errorShown := false
    timeouts := u.timeouts ++ [(100, Deferred.focusName)] }

/-- The call `clearInterval(handle)`. -/
def clearInterval (u : Flow) (handle : Option Nat) : Flow :=
  match handle with
  | some id => { u with countdowns := u.countdowns.filter fun c => c.id != id }
  | none => u

/-- The flag is `false` when the function throws: `getElementById('resendTimer')`
is `null` once the element is gone, and `timerEl.textContent = seconds` is a
`TypeError`, after the button has been disabled and before any interval is
touched. -/
def startResendTimer (u : Flow) : Flow × Bool :=
  let u1 := { u with resendDisabled := true }
  match u1.resendTimer with
  | none => (u1, false)
  | some _ =>
    let u2 := { u1 with resendTimer := some 60 }
    let u3 :=
      match u2.resendTimerInterval with
      | some id => if id = 0 then u2 else clearInterval u2 (some id)
      | none => u2
    ({ u3 with
        resendTimerInterval := some u3.nextTimerId
        countdowns := u3.countdowns ++ [⟨u3.nextTimerId, 60⟩]
        nextTimerId := u3.nextTimerId + 1 }, true)

/-- The callback of the interval with the given handle, run once. -/
def fire (u : Flow) (id : Nat) : Flow :=
  match u.countdowns.find? fun c => c.id == id with
  | none => u
  | some c =>
    let u1 := { u with
      countdowns := u.countdowns.map fun d =>
        if d.id == id then { d with seconds := c.seconds - 1 } else d
      resendTimer := u.resendTimer.map fun _ => c.seconds - 1 }
    if c.seconds - 1 ≤ 0 then
      { clearInterval u1 u1.resendTimerInterval with
        resendDisabled := false
        resendTimer := none }
    else u1

/-- One second passes: every interval that is still running fires once. -/
def tick (u : Flow) : Flow :=
  u.countdowns.foldl (fun acc c => fire acc c.id) u

/-- The flag is `false` when `startResendTimer` throws. -/
def goToOTPStep (u : Flow) : Flow × Bool :=
  let u1 := { u with
    stepMobile := false
    stepOTP := true
    stepName := false
    errorShown := false
    otpMobileDisplay := "+91 " ++ u.currentMobile }
  let r := startResendTimer u1
  if r.2 then ({ r.1 with timeouts := r.1.timeouts ++ [(100, Deferred.focusFirstDigit)] }, true)
  else (r.1, false)

def handleLoginSuccess (u : Flow) (customer : Option Customer) : Flow :=
  let u1 := closeModal u
  let u2 :=
    match u1.onLoginSuccess with
    | some f => { u1 with invoked := u1.invoked ++ [(f, customer)] }
    | none => u1
  { u2 with toasts := u2.toasts ++ ["Welcome" ++
      (match customer with
        | some c => if truthy c.name then ", " ++ c.name.getD "" else ""
        | none => "") ++ "!"] }

def handleSendOTP (p : Page) (reply : Reply OtpBody) : Page :=
  let mobile := jsTrim p.ui.loginMobile
  let channel := p.ui.otpChannel
  if mobile = "" ∨ jsLength mobile ≠ 10 then
    { p with ui := showError p.ui (ErrorText.text "Please enter a valid 10-digit mobile number") }
  else if !matchesIndianMobile mobile then
    { p with ui := showError p.ui (ErrorText.text "Please enter a valid Indian mobile number") }
  else
    let u1 := setButtonLoading p.ui Button.btnSendOTP true
    let a := sendOTP p.world mobile channel reply
    match a.result with
    | Settled.resolved result =>
      let u2 := { u1 with currentMobile := mobile, isNewCustomer := result.isNewCustomer }
      let r := goToOTPStep u2
      let u3 := if r.2 then r.1 else showError r.1 ErrorText.native
      ⟨a.world, setButtonLoading u3 Button.btnSendOTP false⟩
    | Settled.rejected e =>
      ⟨a.world, setButtonLoading (showError u1 e) Button.btnSendOTP false⟩

/-- The token goes through `localStorage.setItem`, which stores the text
`undefined` for a result without a token. -/
def handleVerifyOTP (p : Page) (reply : Reply VerifyBody) : Page :=
  let otp := String.join p.ui.otpDigits
  if jsLength otp ≠ 6 then
    { p with ui := showError p.ui (ErrorText.text "Please enter the complete 6-digit OTP") }
  else
    let u1 := setButtonLoading p.ui Button.btnVerifyOTP true
    let a := verifyOTP p.world p.ui.currentMobile otp none reply
    match a.result with
    | Settled.resolved result =>
      let s1 := setToken a.world.store (result.token.getD "undefined")
      let s2 :=
        match result.customer with
        | some c => setCustomer s1 c
        | none => s1
      let u2 :=
        if result.needsName then goToNameStep u1
        else handleLoginSuccess u1 result.customer
      ⟨{ a.world with store := s2 }, setButtonLoading u2 Button.btnVerifyOTP false⟩
    | Settled.rejected e =>
      let u2 := showError u1 e
      let u3 := { u2 with
        otpDigits := u2.otpDigits.map fun _ => ""
        focus := some (Field.otpDigit 0) }
      ⟨a.world, setButtonLoading u3 Button.btnVerifyOTP false⟩

def handleResendOTP (p : Page) (reply : Reply OtpBody) : Page :=
  let channel := p.ui.otpChannel
  let a := sendOTP p.world p.ui.currentMobile channel reply
  match a.result with
  | Settled.resolved _ =>
    let r := startResendTimer p.ui
    if r.2 then
      ⟨a.world, { r.1 with
        otpDigits := r.1.otpDigits.map fun _ => ""
        focus := some (Field.otpDigit 0) }⟩
    else ⟨a.world, showError r.1 ErrorText.native⟩
  | Settled.rejected e => ⟨a.world, showError p.ui e⟩

def handleSaveName (p : Page) (reply : Reply CustomerBody) : Page :=
  let name := jsTrim p.ui.loginName
  if name = "" then
    { p with ui := showError p.ui (ErrorText.text "Please enter your name") }
  else
    let u1 := setButtonLoading p.ui Button.btnSaveName true
    let o := updateName p.world name reply
    match o.value with
    | some result =>
      ⟨o.world, setButtonLoading (handleLoginSuccess u1 result.customer) Button.btnSaveName false⟩
    | none =>
      ⟨o.world, setButtonLoading (showError u1 (updateNameError reply)) Button.btnSaveName false⟩

/-! ## Sample states of the flow -/

/-- The modal shown with a callback, and a valid mobile typed. -/
def mobileTyped : Page :=
  { ui := { showModal {} (some "goToCheckout") with loginMobile := "9876543210" } }

/-- The flow on the OTP step: `handleSendOTP` answered 200. -/
def otpStep : Page :=
  handleSendOTP mobileTyped (Reply.response 200 (some {}))

/-- The OTP step with six digits typed. -/
def otpTyped : Page :=
  { otpStep with ui := { otpStep.ui with otpDigits := ["1", "2", "3", "4", "5", "6"] } }

/-- The OTP step after the countdown has run its 60 seconds, and two digits typed. -/
def countdownOver : Page :=
  { otpStep with ui := { tick^[60] otpStep.ui with otpDigits := ["1", "2", "", "", "", ""] } }

end CustomerAuth

/-! ## Lists -/

namespace CustomerAuth

theorem findIndex_eq_none (p : CartItem → Bool) (l : Cart) (h : ∀ x ∈ l, p x = false) :
    findIndex p l = none := by
  induction l with
  | nil => rfl
  | cons x xs ih =>
    have hx : p x = false := h x (List.mem_cons_self _ _)
    have hxs : ∀ y ∈ xs, p y = false := fun y hy => h y (List.mem_cons_of_mem _ hy)
    simp [findIndex, hx, ih hxs]

theorem findIndex_none_forall (p : CartItem → Bool) (l : Cart) (h : findIndex p l = none) :
    ∀ x ∈ l, p x = false := by
  induction l with
  | nil => simp
  | cons x xs ih =>
    unfold findIndex at h
    by_cases hx : p x = true
    · simp [hx] at h
    · simp only [hx, Bool.false_eq_true, if_false, Option.map_eq_none'] at h
      intro y hy
      rcases List.mem_cons.mp hy with rfl | hy
      · simpa using hx
      · exact ih h y hy

theorem findIndex_append_last (p : CartItem → Bool) (l : Cart) (e : CartItem)
    (h : ∀ x ∈ l, p x = false) (he : p e = true) :
    findIndex p (l ++ [e]) = some l.length := by
  induction l with
  | nil => simp [findIndex, he]
  | cons x xs ih =>
    have hx : p x = false := h x (List.mem_cons_self _ _)
    have hxs : ∀ y ∈ xs, p y = false := fun y hy => h y (List.mem_cons_of_mem _ hy)
    simp [findIndex, hx, ih hxs]

theorem modify_append_last (f : CartItem → CartItem) (l : Cart) (e : CartItem) :
    (l ++ [e]).modify f l.length = l ++ [f e] := by
  induction l with
  | nil => rfl
  | cons x xs ih => simp [List.modify_succ_cons, ih]

theorem modify_eq_ref (f : CartItem → CartItem) (C : Cart) (n : Nat) (h : n < C.length) :
    C.modify f n = C.take n ++ [f (C.get ⟨n, h⟩)] ++ C.drop (n + 1) := by
  induction C generalizing n with
  | nil => simp at h
  | cons x xs ih =>
    cases n with
    | zero => simp [List.modify]
    | succ m =>
      have hm : m < xs.length := by simpa using h
      simp [List.modify_succ_cons, ih m hm]

theorem map_identityKey_modify (q : CartItem → Int) (l : Cart) (n : Nat) :
    (l.modify (fun e => { e with quantity := q e }) n).map identityKey = l.map identityKey := by
  induction l generalizing n with
  | nil => cases n <;> rfl
  | cons x xs ih =>
    cases n with
    | zero => rfl
    | succ m => simp [List.modify_succ_cons, ih m]

/-! ## addToCart -/

/-- An item that matches no line is appended, with the fallbacks applied. -/
theorem addToCart_absent (w : World) (cart : Cart) (item : Item)
    (hC : getLocalCart w.store = some cart)
    (hno : findIndex
      (fun i => i.productSlug == item.productSlug && i.flavour == item.flavour) cart = none) :
    (addToCart w item).value = some (cart ++ [{
        productId := orElseStr item.productId item.id
        productSlug := orElseStr item.productSlug item.slug
        name := item.name
        flavour := orElseStr item.flavour item.selectedFlavour
        quantity := quantityOrOne item.quantity
        price := item.price
        image := item.image }]) ∧
    getLocalCart (addToCart w item).world.store = (addToCart w item).value := by
  unfold addToCart
  rw [hC]
  simp only [hno]
  split <;> exact ⟨rfl, rfl⟩

/-- An item that matches the line at index `k` adds its quantity to that line. -/
theorem addToCart_present (w : World) (cart : Cart) (item : Item) (k : Nat)
    (hC : getLocalCart w.store = some cart)
    (hk : findIndex
      (fun i => i.productSlug == item.productSlug && i.flavour == item.flavour) cart = some k) :
    (addToCart w item).value = some (cart.modify
        (fun e => { e with quantity := e.quantity + quantityOrOne item.quantity }) k) ∧
    getLocalCart (addToCart w item).world.store = (addToCart w item).value := by
  unfold addToCart
  rw [hC]
  simp only [hk]
  split <;> exact ⟨rfl, rfl⟩

/-- No line of `C` has the key `addToCart` looks the item up by. -/
theorem lookup_misses (C : Cart) (item : Item)
    (hfresh : ∀ e ∈ C, ¬ (e.productSlug = item.productSlug ∧ e.flavour = item.flavour)) :
    ∀ x ∈ C,
      (fun i : CartItem => i.productSlug == item.productSlug && i.flavour == item.flavour) x
        = false := by
  intro x hx
  have := hfresh x hx
  by_cases h1 : x.productSlug = item.productSlug
  · have h2 : x.flavour ≠ item.flavour := fun h => this ⟨h1, h⟩
    simp [h1, h2]
  · simp [h1]

/-- A call of `addToCart` on a cart that ends with the line a first call appended
for the same item, when the fallbacks leave the key of the item as it is: the
quantity of that line becomes 2. This holds from any world, so also after a reply
has been handled in between, as long as the cart is the one the first call left. -/
theorem addToCart_second (w : World) (C : Cart) (item : Item)
    (hC : getLocalCart w.store = some (C ++ [{
        productId := orElseStr item.productId item.id
        productSlug := orElseStr item.productSlug item.slug
        name := item.name
        flavour := orElseStr item.flavour item.selectedFlavour
        quantity := quantityOrOne item.quantity
        price := item.price
        image := item.image }]))
    (hfresh : ∀ e ∈ C, ¬ (e.productSlug = item.productSlug ∧ e.flavour = item.flavour))
    (hq : item.quantity = some 1)
    (hs : orElseStr item.productSlug item.slug = item.productSlug)
    (hf : orElseStr item.flavour item.selectedFlavour = item.flavour) :
    (addToCart w item).value = some (C ++ [{
        productId := orElseStr item.productId item.id
        productSlug := item.productSlug
        name := item.name
        flavour := item.flavour
        quantity := 2
        price := item.price
        image := item.image }]) ∧
    getLocalCart (addToCart w item).world.store = (addToCart w item).value := by
  have hk := findIndex_append_last
    (fun i : CartItem => i.productSlug == item.productSlug && i.flavour == item.flavour) C
    { productId := orElseStr item.productId item.id
      productSlug := orElseStr item.productSlug item.slug
      name := item.name
      flavour := orElseStr item.flavour item.selectedFlavour
      quantity := quantityOrOne item.quantity
      price := item.price
      image := item.image } (lookup_misses C item hfresh) (by simp [hs, hf])
  obtain ⟨hv2, hs2⟩ := addToCart_present w _ item _ hC hk
  refine ⟨?_, hs2⟩
  rw [hv2, modify_append_last]
  simp [hs, hf, hq, quantityOrOne]

/-- Without a session a call of `addToCart` leaves no call of `syncCartToServer`
pending and issues no request, so the next operation starts from the world it
returns. -/
theorem addToCart_anonymous_settled (w : World) (item : Item)
    (hanon : isLoggedIn w.store = false) :
    (addToCart w item).world.detached = w.detached ∧
    (addToCart w item).world.requests = w.requests ∧
    isLoggedIn (addToCart w item).world.store = false := by
  have hsave : ∀ c, isLoggedIn (saveLocalCart w c).store = false := fun _ => hanon
  unfold addToCart
  cases hL : getLocalCart w.store with
  | none => exact ⟨rfl, rfl, hanon⟩
  | some cart =>
    simp only [hsave, Bool.false_eq_true, if_false]
    refine ⟨?_, ?_, ?_⟩ <;> first | rfl | trivial

/-- With nobody logged in, for a stored cart `C` with no line keyed
(`item.productSlug`, `item.flavour`) and an item of quantity 1 whose `productSlug`
and `flavour` are left as they are by the fallbacks `|| item.slug` and
`|| item.selectedFlavour` (so in particular when both are non-empty strings),
two calls of `addToCart(item)` return and store `C` followed by one new line
with that key and quantity 2; that line is the only one with the key, and no
call of `syncCartToServer` is left pending. -/
theorem addToCart_twice_merges (w : World) (C : Cart) (item : Item)
    (hanon : isLoggedIn w.store = false)
    (hC : getLocalCart w.store = some C)
    (hfresh : ∀ e ∈ C, ¬ (e.productSlug = item.productSlug ∧ e.flavour = item.flavour))
    (hq : item.quantity = some 1)
    (hs : orElseStr item.productSlug item.slug = item.productSlug)
    (hf : orElseStr item.flavour item.selectedFlavour = item.flavour) :
    (addToCart (addToCart w item).world item).value = some (C ++ [{
        productId := orElseStr item.productId item.id
        productSlug := item.productSlug
        name := item.name
        flavour := item.flavour
        quantity := 2
        price := item.price
        image := item.image }]) ∧
    getLocalCart (addToCart (addToCart w item).world item).world.store =
      (addToCart (addToCart w item).world item).value ∧
    List.countP
      (fun e : CartItem => decide (e.productSlug = item.productSlug ∧ e.flavour = item.flavour))
      (C ++ [{
        productId := orElseStr item.productId item.id
        productSlug := item.productSlug
        name := item.name
        flavour := item.flavour
        quantity := 2
        price := item.price
        image := item.image }]) = 1 ∧
    (addToCart (addToCart w item).world item).world.detached = w.detached := by
  obtain ⟨hv1, hs1⟩ := addToCart_absent w C item hC
    (findIndex_eq_none _ C (lookup_misses C item hfresh))
  rw [hv1] at hs1
  obtain ⟨hd1, _, hanon1⟩ := addToCart_anonymous_settled w item hanon
  obtain ⟨hd2, _, _⟩ := addToCart_anonymous_settled (addToCart w item).world item hanon1
  obtain ⟨hv2, hs2⟩ := addToCart_second (addToCart w item).world C item hs1 hfresh hq hs hf
  refine ⟨hv2, hs2, ?_, hd2.trans hd1⟩
  rw [List.countP_append, List.countP_eq_zero.mpr]
  · simp
  · intro e he
    simpa using hfresh e he

/-- An instance of `addToCart_twice_merges`: `berryItem` added twice to `lemonCart`
with nobody logged in. -/
theorem addToCart_twice_merges_anonymous :
    isLoggedIn lemonWorld.store = false ∧
    getLocalCart lemonWorld.store = some lemonCart ∧
    (addToCart (addToCart lemonWorld berryItem).world berryItem).value =
      some (lemonCart ++
        [{ productSlug := some "electrolyte", flavour := some "berry", quantity := 2 }]) :=
  ⟨rfl, rfl, (addToCart_twice_merges lemonWorld lemonCart berryItem rfl rfl (by decide) rfl
    (by decide) (by decide)).1⟩

/-- Handling the reply of a call that was not awaited is what the awaited
`syncCartToServer` does after its `fetch`: from a world with a session, issuing
the `PUT` of `c`, leaving the call pending and then resuming it with the reply
gives the world `syncCartToServer(c)` gives with that reply. -/
theorem resumeSync_eq_syncCartToServer (w : World) (c : Cart) (reply : Reply CartBody)
    (hlog : isLoggedIn w.store = true) :
    resumeSync
      { w.send ⟨Method.PUT, "/cart", getAuthHeaders w.store, Payload.cart c⟩ with
        detached := c :: w.detached } reply
      = (syncCartToServer w (some c) reply).world := by
  unfold resumeSync syncCartToServer
  simp only [hlog, Bool.not_true, Bool.false_eq_true, if_false]
  cases reply with
  | throws => rfl
  | response s b =>
    cases b with
    | none => by_cases hs : isOk s = true <;> simp [hs, World.send]
    | some d => by_cases hs : isOk s = true <;> simp [hs, World.send, saveLocalCart]

/-- With a session, each call of `addToCart` leaves a call of `syncCartToServer`
pending. For a stored cart `C`, an item as in `addToCart_twice_merges` and no
other call pending: when the second call runs before the reply to the first
`PUT` is handled, or after a reply that is swallowed (a throw, a status that is
not 2xx, a body that cannot be parsed), it returns and stores `C` followed by the
line with quantity 2; when a 2xx reply with a cart `C1` is handled in between,
the second call starts from `C1`. -/
theorem addToCart_twice_session (w : World) (C : Cart) (item : Item)
    (hlog : isLoggedIn w.store = true) (hd : w.detached = [])
    (hC : getLocalCart w.store = some C)
    (hfresh : ∀ e ∈ C, ¬ (e.productSlug = item.productSlug ∧ e.flavour = item.flavour))
    (hq : item.quantity = some 1)
    (hs : orElseStr item.productSlug item.slug = item.productSlug)
    (hf : orElseStr item.flavour item.selectedFlavour = item.flavour) :
    (addToCart w item).world.detached = [C ++ [{
        productId := orElseStr item.productId item.id
        productSlug := orElseStr item.productSlug item.slug
        name := item.name
        flavour := orElseStr item.flavour item.selectedFlavour
        quantity := quantityOrOne item.quantity
        price := item.price
        image := item.image }]] ∧
    (addToCart (addToCart w item).world item).value = some (C ++ [{
        productId := orElseStr item.productId item.id
        productSlug := item.productSlug
        name := item.name
        flavour := item.flavour
        quantity := 2
        price := item.price
        image := item.image }]) ∧
    (∀ reply, (reply = Reply.throws ∨
        ∃ s b, reply = Reply.response s b ∧ (isOk s = false ∨ b = none)) →
      (addToCart (resumeSync (addToCart w item).world reply) item).value = some (C ++ [{
        productId := orElseStr item.productId item.id
        productSlug := item.productSlug
        name := item.name
        flavour := item.flavour
        quantity := 2
        price := item.price
        image := item.image }])) ∧
    (∀ s C1, isOk s = true →
      getLocalCart (resumeSync (addToCart w item).world
        (Reply.response s (some { cart := some C1 }))).store = some C1) := by
  obtain ⟨hv1, hs1⟩ := addToCart_absent w C item hC
    (findIndex_eq_none _ C (lookup_misses C item hfresh))
  rw [hv1] at hs1
  have hdet : (addToCart w item).world.detached = [C ++ [{
        productId := orElseStr item.productId item.id
        productSlug := orElseStr item.productSlug item.slug
        name := item.name
        flavour := orElseStr item.flavour item.selectedFlavour
        quantity := quantityOrOne item.quantity
        price := item.price
        image := item.image }]] := by
    have hsave : ∀ c, isLoggedIn (saveLocalCart w c).store = true := fun _ => hlog
    have hsd : ∀ c, (saveLocalCart w c).detached = [] := fun _ => hd
    unfold addToCart
    rw [hC]
    simp only [findIndex_eq_none _ C (lookup_misses C item hfresh), hsave, if_true, hsd,
      List.nil_append]
  refine ⟨hdet, (addToCart_second _ C item hs1 hfresh hq hs hf).1, ?_, ?_⟩
  · intro reply hfail
    have hkeep : getLocalCart (resumeSync (addToCart w item).world reply).store
        = getLocalCart (addToCart w item).world.store := by
      unfold resumeSync
      rw [hdet]
      rcases hfail with h | ⟨s, b, h, hsb⟩
      · subst h
        rfl
      · subst h
        cases b with
        | none => by_cases hs0 : isOk s = true <;> simp [hs0]
        | some d =>
          rcases hsb with h0 | hb
          · simp [h0]
          · cases hb
    exact (addToCart_second _ C item (hkeep.trans hs1) hfresh hq hs hf).1
  · intro s C1 hs0
    unfold resumeSync
    rw [hdet]
    simp only [hs0, if_true]
    rfl

/-- An instance of `addToCart_twice_session`: with a session and `lemonCart`
stored, `berryItem` is added, the reply 200 with an empty cart to its `PUT` is
handled, and `berryItem` is added again: the stored cart is the one new line,
with quantity 1. -/
theorem addToCart_twice_reply_between :
    isLoggedIn lemonSession.store = true ∧
    getLocalCart (resumeSync (addToCart lemonSession berryItem).world
      (Reply.response 200 (some { cart := some [] }))).store = some [] ∧
    getLocalCart (addToCart
      (resumeSync (addToCart lemonSession berryItem).world
        (Reply.response 200 (some { cart := some [] }))) berryItem).world.store
      = some [{ productSlug := some "electrolyte", flavour := some "berry", quantity := 1 }] := by
  decide

/-- C1, the failing inputs, with nobody logged in. The stored cart is empty and the
item has the empty `productSlug`, flavour `lemon` and quantity 1: after two calls
of `addToCart` the cart holds two lines of quantity 1 whose `productSlug` is
absent, and no line has the key of the item. The stored cart is `lemonCart` and
the item has the product of that line, the empty `flavour` and quantity 1: after
two calls the cart holds, after the line of `lemonCart`, two lines of quantity 1
whose `flavour` is absent. -/
theorem addToCart_twice_falsy_key :
    (isLoggedIn ({} : World).store = false ∧
      getLocalCart ({} : World).store = some [] ∧
      emptySlugItem.productSlug = some "" ∧ emptySlugItem.flavour = some "lemon" ∧
      emptySlugItem.quantity = some 1 ∧
      (addToCart (addToCart {} emptySlugItem).world emptySlugItem).value =
        some [{ flavour := some "lemon", quantity := 1 },
              { flavour := some "lemon", quantity := 1 }] ∧
      getLocalCart (addToCart (addToCart {} emptySlugItem).world emptySlugItem).world.store =
        some [{ flavour := some "lemon", quantity := 1 },
              { flavour := some "lemon", quantity := 1 }] ∧
      List.countP
        (fun e : CartItem => decide (e.productSlug = some "" ∧ e.flavour = some "lemon"))
        [{ flavour := some "lemon", quantity := 1 },
         { flavour := some "lemon", quantity := 1 }] = 0) ∧
    (isLoggedIn lemonWorld.store = false ∧
      getLocalCart lemonWorld.store = some lemonCart ∧
      (∀ e ∈ lemonCart, ¬ (e.productSlug = emptyFlavourItem.productSlug ∧
        e.flavour = emptyFlavourItem.flavour)) ∧
      emptyFlavourItem.quantity = some 1 ∧
      getLocalCart
        (addToCart (addToCart lemonWorld emptyFlavourItem).world emptyFlavourItem).world.store =
        some [{ productSlug := some "electrolyte", flavour := some "lemon", quantity := 1 },
              { productSlug := some "electrolyte", quantity := 1 },
              { productSlug := some "electrolyte", quantity := 1 }]) := by
  decide

end CustomerAuth

namespace CustomerAuth

/-! ## Uniqueness of identity keys -/

/-- C2, the failing input: `lemonCart` has unique keys; `addToCart` of the item
that carries the same product and flavour in `slug` and `selectedFlavour` appends
a second line with the key of the first, so the stored cart has a duplicate. -/
theorem addToCart_fallback_breaks_uniqueKeys :
    uniqueKeys lemonCart ∧
    (addToCart lemonWorld lemonFallbackItem).value =
      some [{ productSlug := some "electrolyte", flavour := some "lemon", quantity := 1 },
            { productSlug := some "electrolyte", flavour := some "lemon", quantity := 1 }] ∧
    getLocalCart (addToCart lemonWorld lemonFallbackItem).world.store =
      some [{ productSlug := some "electrolyte", flavour := some "lemon", quantity := 1 },
            { productSlug := some "electrolyte", flavour := some "lemon", quantity := 1 }] ∧
    ¬ uniqueKeys
      [{ productSlug := some "electrolyte", flavour := some "lemon", quantity := 1 },
       { productSlug := some "electrolyte", flavour := some "lemon", quantity := 1 }] := by
  decide

/-- In range, `updateCartItem` returns and stores the cart without the entry, or
with its quantity replaced. -/
theorem updateCartItem_in_range (w : World) (C : Cart) (i q : Int)
    (hC : getLocalCart w.store = some C) (hr : ¬ (i < 0 ∨ i ≥ C.length)) :
    (updateCartItem w i q).value = some (if q ≤ 0 then C.eraseIdx i.toNat
        else C.modify (fun e => { e with quantity := q }) i.toNat) ∧
    (updateCartItem w i q).world.store.cart = CartSlot.text (if q ≤ 0 then C.eraseIdx i.toNat
        else C.modify (fun e => { e with quantity := q }) i.toNat) := by
  unfold updateCartItem
  rw [hC]
  simp only [if_neg hr]
  by_cases hq : q ≤ 0
  · simp only [if_pos hq]
    split <;> exact ⟨rfl, rfl⟩
  · simp only [if_neg hq]
    split <;> exact ⟨rfl, rfl⟩

/-- The operation `updateCartItem`, and with it `removeFromCart`, keeps keys unique. -/
theorem updateCartItem_uniqueKeys (w : World) (C : Cart) (i q : Int)
    (hC : getLocalCart w.store = some C) (hu : uniqueKeys C) :
    ∃ C1, getLocalCart (updateCartItem w i q).world.store = some C1 ∧ uniqueKeys C1 := by
  by_cases hr : i < 0 ∨ i ≥ C.length
  · refine ⟨C, ?_, hu⟩
    unfold updateCartItem
    rw [hC]
    simp only [if_pos hr, hC]
  · obtain ⟨_, hst⟩ := updateCartItem_in_range w C i q hC hr
    refine ⟨_, by unfold getLocalCart; rw [hst], ?_⟩
    by_cases hq : q ≤ 0
    · rw [if_pos hq]
      exact List.Nodup.sublist ((List.eraseIdx_sublist C i.toNat).map identityKey) hu
    · rw [if_neg hq]
      unfold uniqueKeys
      rw [map_identityKey_modify (fun _ => q)]
      exact hu

/-- The operation `clearCart` leaves the empty cart, whose keys are unique. -/
theorem clearCart_uniqueKeys (w : World) (reply : Reply Unit) :
    getLocalCart (clearCart w reply).world.store = some [] ∧ uniqueKeys [] := by
  refine ⟨?_, List.nodup_nil⟩
  unfold clearCart
  cases reply <;> simp only [] <;> split <;> rfl

/-- The operation `addToCart` keeps keys unique for an item whose `productSlug` and
`flavour` are left as they are by the fallbacks. -/
theorem addToCart_uniqueKeys_of_stable (w : World) (C : Cart) (item : Item)
    (hC : getLocalCart w.store = some C) (hu : uniqueKeys C)
    (hs : orElseStr item.productSlug item.slug = item.productSlug)
    (hf : orElseStr item.flavour item.selectedFlavour = item.flavour) :
    ∃ C1, getLocalCart (addToCart w item).world.store = some C1 ∧ uniqueKeys C1 := by
  cases hk : findIndex
      (fun i => i.productSlug == item.productSlug && i.flavour == item.flavour) C with
  | none =>
    obtain ⟨hv, hst⟩ := addToCart_absent w C item hC hk
    rw [hv] at hst
    refine ⟨_, hst, ?_⟩
    unfold uniqueKeys
    rw [List.map_append, List.nodup_append]
    refine ⟨hu, List.nodup_singleton _, ?_⟩
    intro a ha hb
    simp only [List.map_cons, List.map_nil, List.mem_singleton] at hb
    obtain ⟨e, he, rfl⟩ := List.mem_map.mp ha
    have := findIndex_none_forall _ C hk e he
    simp only [identityKey, hs, hf, Prod.mk.injEq] at hb
    simp [hb.1, hb.2] at this
  | some k =>
    obtain ⟨hv, hst⟩ := addToCart_present w C item k hC hk
    rw [hv] at hst
    refine ⟨_, hst, ?_⟩
    unfold uniqueKeys
    rw [map_identityKey_modify (fun e => e.quantity + quantityOrOne item.quantity)]
    exact hu

/-! ## updateCartItem and removeFromCart -/

/-- C3: on a stored cart `C`, `updateCartItem(i, q)` returns `updateCartItemRef C i q`;
for an index out of range it leaves the world as it is (nothing is written, no
event, no request); in range it stores the same cart it returns; and
`removeFromCart(i)` is `updateCartItem(i, 0)`. -/
theorem updateCartItem_eq_ref (w : World) (C : Cart) (i q : Int)
    (hC : getLocalCart w.store = some C) :
    (updateCartItem w i q).value = some (updateCartItemRef C i q) ∧
    ((i < 0 ∨ i ≥ C.length) → (updateCartItem w i q).world = w) ∧
    (¬ (i < 0 ∨ i ≥ C.length) →
      (updateCartItem w i q).world.store.cart = CartSlot.text (updateCartItemRef C i q)) ∧
    removeFromCart w i = updateCartItem w i 0 := by
  have key : ¬ (i < 0 ∨ i ≥ C.length) →
      (if q ≤ 0 then C.eraseIdx i.toNat
        else C.modify (fun e => { e with quantity := q }) i.toNat) = updateCartItemRef C i q := by
    intro hr
    have hn : i.toNat < C.length := by omega
    unfold updateCartItemRef
    rw [if_neg hr]
    by_cases hq : q ≤ 0
    · rw [if_pos hq, if_pos hq, List.eraseIdx_eq_take_drop_succ]
    · rw [if_neg hq, if_neg hq, List.get?_eq_get hn, modify_eq_ref _ _ _ hn]
  refine ⟨?_, ?_, ?_, rfl⟩
  · by_cases hr : i < 0 ∨ i ≥ C.length
    · unfold updateCartItem
      rw [hC]
      simp only [if_pos hr]
      simp [updateCartItemRef, hr]
    · rw [(updateCartItem_in_range w C i q hC hr).1, key hr]
  · intro hr
    unfold updateCartItem
    rw [hC]
    simp only [if_pos hr]
  · intro hr
    rw [(updateCartItem_in_range w C i q hC hr).2, key hr]

/-- Witness for C3: the quantity of the second line of a two-line cart set to 5,
the first line removed, and an index past the end. -/
theorem updateCartItem_eq_ref_witness :
    (updateCartItem twoLineWorld 1 5).value
      = some (lemonCart ++ [{ berryLine with quantity := 5 }]) ∧
    (updateCartItem twoLineWorld 0 0).value
      = some [berryLine] ∧
    (updateCartItem twoLineWorld 2 5).value
      = some (lemonCart ++ [berryLine]) :=
  ⟨(updateCartItem_eq_ref twoLineWorld (lemonCart ++ [berryLine]) 1 5 rfl).1,
   (updateCartItem_eq_ref twoLineWorld (lemonCart ++ [berryLine]) 0 0 rfl).1,
   (updateCartItem_eq_ref twoLineWorld (lemonCart ++ [berryLine]) 2 5 rfl).1⟩

end CustomerAuth

namespace CustomerAuth

/-! ## fetchCart -/

/-- C4: logged in, the `GET` answered 2xx with remote cart `R` (the empty cart when
the body has no `cart`), and not both the local cart non-empty and `R` empty:
`fetchCart` returns `R`, stores `R`, and the `GET` is the only request it issues. -/
theorem fetchCart_adopts_remote (w : World) (L : Cart) (status : Nat) (data : CartBody)
    (putReply : Reply CartBody)
    (hlog : isLoggedIn w.store = true) (hL : getLocalCart w.store = some L)
    (hok : isOk status = true) (hcase : ¬ (L ≠ [] ∧ data.cart.getD [] = [])) :
    (fetchCart w (Reply.response status (some data)) putReply).value
      = some (data.cart.getD []) ∧
    (fetchCart w (Reply.response status (some data)) putReply).world.store.cart
      = CartSlot.text (data.cart.getD []) ∧
    (fetchCart w (Reply.response status (some data)) putReply).world.requests
      = w.requests ++ [⟨Method.GET, "/cart", getAuthHeaders w.store, Payload.empty⟩] := by
  have hL1 : getLocalCart (w.send
      ⟨Method.GET, "/cart", getAuthHeaders w.store, Payload.empty⟩).store = some L := hL
  have hc : (decide (L.length > 0) && decide ((data.cart.getD []).length = 0)) = false := by
    by_cases h1 : L = []
    · simp [h1]
    · have h2 : data.cart.getD [] ≠ [] := fun h => hcase ⟨h1, h⟩
      simp [h2]
  unfold fetchCart
  simp only [hlog, hok, hL1, hc, Bool.not_true, Bool.false_eq_true, if_false]
  exact ⟨trivial, rfl, rfl⟩

/-- Witness for C4: local `[A]` and remote `[B]` give `[B]`, stored and returned. -/
theorem fetchCart_adopts_remote_witness :
    (fetchCart lemonSession (Reply.response 200 (some { cart := some [berryLine] }))
      Reply.throws).value = some [berryLine] ∧
    (fetchCart lemonSession (Reply.response 200 (some { cart := some [berryLine] }))
      Reply.throws).world.store.cart = CartSlot.text [berryLine] :=
  ⟨(fetchCart_adopts_remote lemonSession lemonCart 200 { cart := some [berryLine] }
      Reply.throws rfl rfl rfl (by decide)).1,
   (fetchCart_adopts_remote lemonSession lemonCart 200 { cart := some [berryLine] }
      Reply.throws rfl rfl rfl (by decide)).2.1⟩

/-- Logged in, `syncCartToServer` issues the `PUT` of the given cart (of the local
cart `L` when none is given); a 2xx reply with a parsed body makes it store and
return the `cart` of the body, every other reply makes it return the cart sent. -/
theorem syncCartToServer_loggedIn (w : World) (cart : Option Cart) (L : Cart)
    (reply : Reply CartBody)
    (hlog : isLoggedIn w.store = true) (hL : getLocalCart w.store = some L) :
    syncCartToServer w cart reply =
      match reply with
      | Reply.response s (some d) =>
        if isOk s then
          ⟨saveLocalCart
            (w.send ⟨Method.PUT, "/cart", getAuthHeaders w.store, Payload.cart (cart.getD L)⟩)
            d.cart, some d.cart⟩
        else
          ⟨w.send ⟨Method.PUT, "/cart", getAuthHeaders w.store, Payload.cart (cart.getD L)⟩,
            some (some (cart.getD L))⟩
      | _ =>
        ⟨w.send ⟨Method.PUT, "/cart", getAuthHeaders w.store, Payload.cart (cart.getD L)⟩,
          some (some (cart.getD L))⟩ := by
  have hc : (match cart with
      | some c => some c
      | none => getLocalCart w.store) = some (cart.getD L) := by
    cases cart <;> simp [hL]
  unfold syncCartToServer
  simp only [hlog, hc, Bool.not_true, Bool.false_eq_true, if_false]
  cases reply with
  | throws => rfl
  | response s b =>
    cases b with
    | none => by_cases hs : isOk s = true <;> simp [hs]
    | some d => rfl

/-- The push branch of `fetchCart`: what it does is what `syncCartToServer` does
with the local cart after the `GET`, and it returns the local cart. -/
theorem fetchCart_push (w : World) (L : Cart) (status : Nat) (data : CartBody)
    (putReply : Reply CartBody)
    (hlog : isLoggedIn w.store = true) (hL : getLocalCart w.store = some L)
    (hne : L ≠ []) (hok : isOk status = true) (hR : data.cart.getD [] = []) :
    fetchCart w (Reply.response status (some data)) putReply =
      ⟨(syncCartToServer
          (w.send ⟨Method.GET, "/cart", getAuthHeaders w.store, Payload.empty⟩)
          (some L) putReply).world, some L⟩ := by
  have hL1 : getLocalCart (w.send
      ⟨Method.GET, "/cart", getAuthHeaders w.store, Payload.empty⟩).store = some L := hL
  have hc : (decide (L.length > 0) && decide ((data.cart.getD []).length = 0)) = true := by
    have : 0 < L.length := List.length_pos.mpr hne
    simp [hR, this]
  have hv : ∃ v, (syncCartToServer
      (w.send ⟨Method.GET, "/cart", getAuthHeaders w.store, Payload.empty⟩)
      (some L) putReply).value = some v := by
    rw [syncCartToServer_loggedIn
      (w.send ⟨Method.GET, "/cart", getAuthHeaders w.store, Payload.empty⟩)
      (some L) L putReply hlog hL1]
    cases putReply with
    | throws => exact ⟨_, rfl⟩
    | response s b =>
      cases b with
      | none => exact ⟨_, rfl⟩
      | some d => by_cases hs : isOk s = true <;> simp [hs]
  obtain ⟨v, hv⟩ := hv
  unfold fetchCart
  simp only [hlog, hok, hL1, hc, hv, Bool.not_true, Bool.false_eq_true, if_false, if_true]

/-- C5: logged in, a non-empty local cart `L`, and the `GET` answered 2xx with an
empty or missing remote cart: `fetchCart` returns `L` and issues, after the `GET`,
one `PUT` whose body is the cart `L`, whatever the reply to the `PUT`. -/
theorem fetchCart_pushes_local (w : World) (L : Cart) (status : Nat) (data : CartBody)
    (putReply : Reply CartBody)
    (hlog : isLoggedIn w.store = true) (hL : getLocalCart w.store = some L)
    (hne : L ≠ []) (hok : isOk status = true) (hR : data.cart.getD [] = []) :
    (fetchCart w (Reply.response status (some data)) putReply).value = some L ∧
    (fetchCart w (Reply.response status (some data)) putReply).world.requests
      = w.requests ++ [⟨Method.GET, "/cart", getAuthHeaders w.store, Payload.empty⟩,
          ⟨Method.PUT, "/cart", getAuthHeaders w.store, Payload.cart L⟩] := by
  rw [fetchCart_push w L status data putReply hlog hL hne hok hR]
  refine ⟨rfl, ?_⟩
  have h1 : isLoggedIn (w.send
      ⟨Method.GET, "/cart", getAuthHeaders w.store, Payload.empty⟩).store = true := hlog
  rw [syncCartToServer_loggedIn
    (w.send ⟨Method.GET, "/cart", getAuthHeaders w.store, Payload.empty⟩)
    (some L) L putReply h1 hL]
  cases putReply with
  | throws => simp [World.send]
  | response s b =>
    cases b with
    | none => simp [World.send]
    | some d => by_cases hs : isOk s = true <;> simp [hs, World.send, saveLocalCart]

/-- Witness for C5: `lemonCart` pushed to an empty remote cart. -/
theorem fetchCart_pushes_local_witness :
    (fetchCart lemonSession (Reply.response 200 (some { cart := some [] }))
      (Reply.response 500 none)).value = some lemonCart ∧
    (fetchCart lemonSession (Reply.response 200 (some { cart := some [] }))
      (Reply.response 500 none)).world.requests
      = [⟨Method.GET, "/cart", some "tok", Payload.empty⟩,
         ⟨Method.PUT, "/cart", some "tok", Payload.cart lemonCart⟩] :=
  fetchCart_pushes_local lemonSession lemonCart 200 { cart := some [] }
    (Reply.response 500 none) rfl rfl (by decide) rfl rfl

end CustomerAuth

namespace CustomerAuth

/-- C6 as stated fails: local `lemonCart`, the `GET` answered 2xx with an empty
cart, the `PUT` answered 2xx with the cart `[berryLine]`: `fetchCart` returns
`lemonCart` and the stored local cart is `[berryLine]`. -/
theorem fetchCart_push_overwritten :
    isLoggedIn lemonSession.store = true ∧
    getLocalCart lemonSession.store = some lemonCart ∧
    (fetchCart lemonSession (Reply.response 200 (some { cart := some [] }))
      (Reply.response 200 (some { cart := some [berryLine] }))).value = some lemonCart ∧
    getLocalCart (fetchCart lemonSession (Reply.response 200 (some { cart := some [] }))
      (Reply.response 200 (some { cart := some [berryLine] }))).world.store
      = some [berryLine] ∧
    [berryLine] ≠ lemonCart := by
  decide

/-- C6, as amended: logged in, a non-empty local cart `L`, the `GET` answered 2xx
with an empty or missing remote cart. `fetchCart` returns `L` whatever the reply
to the `PUT`. The storage is left as it was, so the local cart is still `L`, when
the `PUT` throws, is answered with a status that is not 2xx, or is answered with a
body that cannot be parsed. When the `PUT` is answered 2xx with a cart `C1`, the
stored local cart is `C1`. -/
theorem fetchCart_push_keeps_or_adopts (w : World) (L : Cart) (status : Nat) (data : CartBody)
    (hlog : isLoggedIn w.store = true) (hL : getLocalCart w.store = some L)
    (hne : L ≠ []) (hok : isOk status = true) (hR : data.cart.getD [] = []) :
    (∀ putReply, (fetchCart w (Reply.response status (some data)) putReply).value = some L) ∧
    (fetchCart w (Reply.response status (some data)) Reply.throws).world.store = w.store ∧
    (∀ s b, (isOk s = false ∨ b = none) →
      (fetchCart w (Reply.response status (some data)) (Reply.response s b)).world.store
        = w.store) ∧
    (∀ s C1, isOk s = true →
      (fetchCart w (Reply.response status (some data))
        (Reply.response s (some { cart := some C1 }))).world.store.cart = CartSlot.text C1) := by
  have h1 : isLoggedIn (w.send
      ⟨Method.GET, "/cart", getAuthHeaders w.store, Payload.empty⟩).store = true := hlog
  refine ⟨?_, ?_, ?_, ?_⟩
  · intro putReply
    rw [fetchCart_push w L status data putReply hlog hL hne hok hR]
  · rw [fetchCart_push w L status data _ hlog hL hne hok hR,
      syncCartToServer_loggedIn
        (w.send ⟨Method.GET, "/cart", getAuthHeaders w.store, Payload.empty⟩)
        (some L) L _ h1 hL]
    rfl
  · intro s b hsb
    rw [fetchCart_push w L status data _ hlog hL hne hok hR,
      syncCartToServer_loggedIn
        (w.send ⟨Method.GET, "/cart", getAuthHeaders w.store, Payload.empty⟩)
        (some L) L _ h1 hL]
    cases b with
    | none => rfl
    | some d =>
      rcases hsb with hs | hb
      · simp only [hs, Bool.false_eq_true, if_false]
        rfl
      · cases hb
  · intro s C1 hs
    rw [fetchCart_push w L status data _ hlog hL hne hok hR,
      syncCartToServer_loggedIn
        (w.send ⟨Method.GET, "/cart", getAuthHeaders w.store, Payload.empty⟩)
        (some L) L _ h1 hL]
    simp only [hs, if_true]
    rfl

/-- Witness for C6: `lemonCart` pushed to an empty remote cart. -/
theorem fetchCart_push_keeps_or_adopts_witness :
    (fetchCart lemonSession (Reply.response 200 (some { cart := some [] }))
      Reply.throws).world.store = lemonSession.store ∧
    (fetchCart lemonSession (Reply.response 200 (some { cart := some [] }))
      (Reply.response 200 (some { cart := some [berryLine] }))).world.store.cart
      = CartSlot.text [berryLine] :=
  ⟨(fetchCart_push_keeps_or_adopts lemonSession lemonCart 200 { cart := some [] }
      rfl rfl (by decide) rfl rfl).2.1,
   (fetchCart_push_keeps_or_adopts lemonSession lemonCart 200 { cart := some [] }
      rfl rfl (by decide) rfl rfl).2.2.2 200 [berryLine] rfl⟩

/-- C7: for a stored local cart `L`, when the `GET` throws, is answered with a
status that is not 2xx, or is answered with a body that cannot be parsed,
`fetchCart` resolves with `L`, leaves the storage as it was and dispatches no
`cartUpdated` event, whatever the session and whatever reply a `PUT` would get. -/
theorem fetchCart_fail_soft (w : World) (L : Cart) (putReply : Reply CartBody)
    (hL : getLocalCart w.store = some L) :
    ((fetchCart w Reply.throws putReply).value = some L ∧
      (fetchCart w Reply.throws putReply).world.store = w.store ∧
      (fetchCart w Reply.throws putReply).world.cartUpdated = w.cartUpdated) ∧
    (∀ s b, isOk s = false →
      (fetchCart w (Reply.response s b) putReply).value = some L ∧
      (fetchCart w (Reply.response s b) putReply).world.store = w.store ∧
      (fetchCart w (Reply.response s b) putReply).world.cartUpdated = w.cartUpdated) ∧
    (∀ s,
      (fetchCart w (Reply.response s none) putReply).value = some L ∧
      (fetchCart w (Reply.response s none) putReply).world.store = w.store ∧
      (fetchCart w (Reply.response s none) putReply).world.cartUpdated = w.cartUpdated) := by
  have hL1 : getLocalCart (w.send
      ⟨Method.GET, "/cart", getAuthHeaders w.store, Payload.empty⟩).store = some L := hL
  refine ⟨?_, ?_, ?_⟩
  · unfold fetchCart
    by_cases hlog : isLoggedIn w.store = true
    · simp only [hlog, Bool.not_true, Bool.false_eq_true, if_false, hL1]
      exact ⟨trivial, rfl, rfl⟩
    · simp only [hlog, Bool.not_false, if_true, hL]
      exact ⟨trivial, trivial, trivial⟩
  · intro s b hs
    unfold fetchCart
    by_cases hlog : isLoggedIn w.store = true
    · simp only [hlog, hs, Bool.not_true, Bool.not_false, Bool.false_eq_true, if_false,
        if_true, hL1]
      exact ⟨trivial, rfl, rfl⟩
    · simp only [hlog, Bool.not_false, if_true, hL]
      exact ⟨trivial, trivial, trivial⟩
  · intro s
    unfold fetchCart
    by_cases hlog : isLoggedIn w.store = true
    · by_cases hs : isOk s = true
      · simp only [hlog, hs, Bool.not_true, Bool.false_eq_true, if_false, hL1]
        exact ⟨trivial, rfl, rfl⟩
      · simp only [hlog, hs, Bool.not_true, Bool.not_false, Bool.false_eq_true, if_false,
          if_true, hL1]
        exact ⟨trivial, rfl, rfl⟩
    · simp only [hlog, Bool.not_false, if_true, hL]
      exact ⟨trivial, trivial, trivial⟩

/-- Witness for C7: a session with `lemonCart` stored and a `GET` that fails. -/
theorem fetchCart_fail_soft_witness :
    (fetchCart lemonSession Reply.throws Reply.throws).value = some lemonCart ∧
    (fetchCart lemonSession (Reply.response 503 none) Reply.throws).value = some lemonCart ∧
    (fetchCart lemonSession (Reply.response 200 none) Reply.throws).world.store
      = lemonSession.store :=
  ⟨(fetchCart_fail_soft lemonSession lemonCart Reply.throws rfl).1.1,
   ((fetchCart_fail_soft lemonSession lemonCart Reply.throws rfl).2.1 503 none rfl).1,
   ((fetchCart_fail_soft lemonSession lemonCart Reply.throws rfl).2.2 200).2.1⟩

end CustomerAuth

namespace CustomerAuth

/-! ## syncCartToServer -/

/-- C8 as stated fails: with a session, a `PUT` answered 200 with a body that cannot
be parsed does not overwrite the stored local cart: `syncCartToServer` returns the
cart it sent, the storage is as before and no `cartUpdated` event is dispatched. -/
theorem syncCartToServer_ok_unparsable :
    isLoggedIn lemonSession.store = true ∧ isOk 200 = true ∧
    (syncCartToServer lemonSession (some [berryLine]) (Reply.response 200 none)).value
      = some (some [berryLine]) ∧
    (syncCartToServer lemonSession (some [berryLine]) (Reply.response 200 none)).world.store
      = lemonSession.store ∧
    (syncCartToServer lemonSession (some [berryLine]) (Reply.response 200 none)).world.cartUpdated
      = [] := by
  decide

/-- C8, as amended. Not logged in: no request is issued, the promise resolves with
`undefined` and the stored local cart is the given cart, or the cart `L` stored
before when none is given. Logged in: one `PUT` of the given cart, or of `L` when
none is given, is issued; when it is answered 2xx with a cart `C1`, `C1` is stored
and returned; when it throws, is answered with a status that is not 2xx, or is
answered with a body that cannot be parsed, the promise resolves with the cart
sent and the storage is left as it was. -/
theorem syncCartToServer_behaviour (w : World) (cart : Option Cart) (L : Cart)
    (hL : getLocalCart w.store = some L) :
    (isLoggedIn w.store = false → ∀ reply,
      (syncCartToServer w cart reply).world.requests = w.requests ∧
      (syncCartToServer w cart reply).value = some none ∧
      getLocalCart (syncCartToServer w cart reply).world.store = some (cart.getD L)) ∧
    (isLoggedIn w.store = true →
      (∀ reply, (syncCartToServer w cart reply).world.requests = w.requests ++
        [⟨Method.PUT, "/cart", getAuthHeaders w.store, Payload.cart (cart.getD L)⟩]) ∧
      (∀ s C1, isOk s = true →
        (syncCartToServer w cart (Reply.response s (some { cart := some C1 }))).value
          = some (some C1) ∧
        (syncCartToServer w cart
          (Reply.response s (some { cart := some C1 }))).world.store.cart
          = CartSlot.text C1) ∧
      ((syncCartToServer w cart Reply.throws).value = some (some (cart.getD L)) ∧
        (syncCartToServer w cart Reply.throws).world.store = w.store) ∧
      (∀ s b, (isOk s = false ∨ b = none) →
        (syncCartToServer w cart (Reply.response s b)).value = some (some (cart.getD L)) ∧
        (syncCartToServer w cart (Reply.response s b)).world.store = w.store)) := by
  constructor
  · intro hlog reply
    unfold syncCartToServer
    simp only [hlog, Bool.not_false, if_true]
    cases cart with
    | none => exact ⟨rfl, rfl, hL⟩
    | some c => exact ⟨rfl, rfl, rfl⟩
  · intro hlog
    refine ⟨?_, ?_, ?_, ?_⟩
    · intro reply
      rw [syncCartToServer_loggedIn w cart L reply hlog hL]
      cases reply with
      | throws => rfl
      | response s b =>
        cases b with
        | none => rfl
        | some d => by_cases hs : isOk s = true <;> simp [hs, World.send, saveLocalCart]
    · intro s C1 hs
      rw [syncCartToServer_loggedIn w cart L _ hlog hL]
      simp only [hs, if_true]
      exact ⟨trivial, rfl⟩
    · rw [syncCartToServer_loggedIn w cart L _ hlog hL]
      exact ⟨rfl, rfl⟩
    · intro s b hsb
      rw [syncCartToServer_loggedIn w cart L _ hlog hL]
      cases b with
      | none => exact ⟨rfl, rfl⟩
      | some d =>
        rcases hsb with hs | hb
        · simp only [hs, Bool.false_eq_true, if_false]
          exact ⟨trivial, rfl⟩
        · cases hb

/-- Witness for C8: `[berryLine]` synced without a session and with one. -/
theorem syncCartToServer_behaviour_witness :
    getLocalCart (syncCartToServer lemonWorld (some [berryLine]) Reply.throws).world.store
      = some [berryLine] ∧
    (syncCartToServer lemonSession (some [berryLine])
      (Reply.response 200 (some { cart := some lemonCart }))).value = some (some lemonCart) ∧
    (syncCartToServer lemonSession none (Reply.response 500 none)).value
      = some (some lemonCart) :=
  ⟨((syncCartToServer_behaviour lemonWorld (some [berryLine]) lemonCart rfl).1 rfl
      Reply.throws).2.2,
   ((syncCartToServer_behaviour lemonSession (some [berryLine]) lemonCart rfl).2 rfl).2.1
      200 lemonCart rfl |>.1,
   ((syncCartToServer_behaviour lemonSession none lemonCart rfl).2 rfl).2.2.2
      500 none (Or.inl rfl) |>.1⟩

/-! ## Replies with status 401 -/

/-- C9 as stated fails for the cart calls: with a session, after `fetchCart`,
`syncCartToServer` and `clearCart` are answered 401 the token is still stored and
`isLoggedIn()` is still true. -/
theorem cart_calls_keep_token_on_401 :
    isLoggedIn lemonSession.store = true ∧ isOk 401 = false ∧
    isLoggedIn (fetchCart lemonSession (Reply.response 401 none) Reply.throws).world.store
      = true ∧
    isLoggedIn (syncCartToServer lemonSession none (Reply.response 401 none)).world.store
      = true ∧
    isLoggedIn (clearCart lemonSession (Reply.response 401 none)).world.store = true := by
  decide

/-- C9, as amended. When `getProfile` is answered 401 the token and the cached
customer are removed, `isLoggedIn()` is false afterwards and the call throws.
When `updateName` is answered 401 the call throws. When `fetchCart`,
`syncCartToServer` or `clearCart` is answered 401 the token and the cached
customer stay as they were: the cart calls degrade silently and do not end the
session. -/
theorem reply_401 (w : World) (name : String) (cart : Option Cart)
    (body : Option CustomerBody) (cartBody : Option CartBody) (noBody : Option Unit)
    (putReply : Reply CartBody) :
    ((getProfile w (Reply.response 401 body)).world.store.token = none ∧
      (getProfile w (Reply.response 401 body)).world.store.customer = none ∧
      isLoggedIn (getProfile w (Reply.response 401 body)).world.store = false ∧
      (getProfile w (Reply.response 401 body)).value = none) ∧
    (updateName w name (Reply.response 401 body)).value = none ∧
    ((fetchCart w (Reply.response 401 cartBody) putReply).world.store.token = w.store.token ∧
      (fetchCart w (Reply.response 401 cartBody) putReply).world.store.customer
        = w.store.customer) ∧
    ((syncCartToServer w cart (Reply.response 401 cartBody)).world.store.token
        = w.store.token ∧
      (syncCartToServer w cart (Reply.response 401 cartBody)).world.store.customer
        = w.store.customer) ∧
    ((clearCart w (Reply.response 401 noBody)).world.store.token = w.store.token ∧
      (clearCart w (Reply.response 401 noBody)).world.store.customer = w.store.customer) := by
  have h401 : isOk 401 = false := by decide
  refine ⟨?_, ?_, ?_, ?_, ?_⟩
  · unfold getProfile
    simp only [h401, Bool.not_false, if_true]
    exact ⟨rfl, rfl, rfl, trivial⟩
  · unfold updateName
    cases body with
    | none => rfl
    | some d => simp only [h401, Bool.not_false, if_true]
  · unfold fetchCart
    by_cases hlog : isLoggedIn w.store = true
    · simp only [hlog, h401, Bool.not_true, Bool.not_false, Bool.false_eq_true, if_false,
        if_true]
      exact ⟨rfl, rfl⟩
    · simp only [hlog, Bool.not_false, if_true]
      exact ⟨trivial, trivial⟩
  · unfold syncCartToServer
    by_cases hlog : isLoggedIn w.store = true
    · simp only [hlog, h401, Bool.not_true, Bool.false_eq_true, if_false]
      cases cart with
      | some c => exact ⟨rfl, rfl⟩
      | none =>
        cases hg : getLocalCart w.store with
        | none => exact ⟨rfl, rfl⟩
        | some L => exact ⟨rfl, rfl⟩
    · simp only [hlog, Bool.not_false, if_true]
      cases cart with
      | some c => exact ⟨rfl, rfl⟩
      | none => exact ⟨rfl, rfl⟩
  · unfold clearCart
    simp only []
    split <;> exact ⟨rfl, rfl⟩

end CustomerAuth

namespace CustomerAuth

/-! ## checkAuth -/

/-- C10: `checkAuth` always resolves. Without a token it resolves with `false` and
leaves the world as it was, so no request is issued. With a token, when the request
throws, the status is not 2xx, or the body cannot be parsed, it resolves with
`false`, the token and the cached customer are removed and `isLoggedIn()` is false
afterwards. It resolves with `true` only when a token is stored and the reply is
2xx with a parsed body, and then the token is the one stored before. -/
theorem checkAuth_never_throws (w : World) (reply : Reply CustomerBody) :
    (∃ b, (checkAuth w reply).value = some b) ∧
    (truthy (getToken w.store) = false → checkAuth w reply = ⟨w, some false⟩) ∧
    (truthy (getToken w.store) = true →
      (reply = Reply.throws ∨ ∃ s b, reply = Reply.response s b ∧ (isOk s = false ∨ b = none)) →
      (checkAuth w reply).value = some false ∧
      (checkAuth w reply).world.store.token = none ∧
      (checkAuth w reply).world.store.customer = none ∧
      isLoggedIn (checkAuth w reply).world.store = false) ∧
    ((checkAuth w reply).value = some true →
      truthy (getToken w.store) = true ∧
      (∃ s d, reply = Reply.response s (some d) ∧ isOk s = true) ∧
      (checkAuth w reply).world.store.token = w.store.token) := by
  by_cases ht : truthy (getToken w.store) = true
  · have hno : truthy (getToken w.store) ≠ false := by simp [ht]
    have hstep : checkAuth w reply =
        match reply with
        | Reply.throws =>
          ⟨{ w.send ⟨Method.GET, "/check-auth", getToken w.store, Payload.empty⟩ with
              store := removeToken w.store }, some false⟩
        | Reply.response status body =>
          if !isOk status then
            ⟨{ w.send ⟨Method.GET, "/check-auth", getToken w.store, Payload.empty⟩ with
                store := removeToken w.store }, some false⟩
          else
            match body with
            | none =>
              ⟨{ w.send ⟨Method.GET, "/check-auth", getToken w.store, Payload.empty⟩ with
                  store := removeToken w.store }, some false⟩
            | some data =>
              match data.customer with
              | some c =>
                ⟨{ w.send ⟨Method.GET, "/check-auth", getToken w.store, Payload.empty⟩ with
                    store := setCustomer w.store c }, some true⟩
              | none =>
                ⟨w.send ⟨Method.GET, "/check-auth", getToken w.store, Payload.empty⟩,
                  some true⟩ := by
      unfold checkAuth
      simp only [ht, Bool.not_true, Bool.false_eq_true, if_false]
      rfl
    rw [hstep]
    cases reply with
    | throws =>
      exact ⟨⟨false, rfl⟩, fun h => absurd h hno, fun _ _ => ⟨rfl, rfl, rfl, rfl⟩,
        fun h => by simp at h⟩
    | response s b =>
      by_cases hs : isOk s = true
      · cases b with
        | none =>
          simp only [hs, Bool.not_true, Bool.false_eq_true, if_false]
          exact ⟨⟨false, rfl⟩, fun h => absurd h hno, fun _ _ => ⟨trivial, rfl, rfl, rfl⟩,
            fun h => by simp at h⟩
        | some d =>
          simp only [hs, Bool.not_true, Bool.false_eq_true, if_false]
          refine ⟨⟨true, ?_⟩, fun h => absurd h hno, fun _ hr => ?_, fun _ => ?_⟩
          · cases d.customer <;> rfl
          · rcases hr with hr | ⟨s1, b1, hr, hsb⟩
            · cases hr
            · cases hr
              rcases hsb with h1 | h1
              · simp [hs] at h1
              · cases h1
          · refine ⟨ht, ⟨s, d, rfl, hs⟩, ?_⟩
            cases d.customer <;> rfl
      · have hs0 : isOk s = false := by simpa using hs
        simp only [hs0, Bool.not_false, if_true]
        exact ⟨⟨false, rfl⟩, fun h => absurd h hno, fun _ _ => ⟨trivial, rfl, rfl, rfl⟩,
          fun h => by simp at h⟩
  · have hf : truthy (getToken w.store) = false := by simpa using ht
    have hstep : checkAuth w reply = ⟨w, some false⟩ := by
      unfold checkAuth
      simp only [hf, Bool.not_false, if_true]
    rw [hstep]
    exact ⟨⟨false, rfl⟩, fun _ => rfl, fun h => absurd h ht, fun h => by simp at h⟩

/-- Witness for C10: no token; a token and a 401; a token and a 200. -/
theorem checkAuth_never_throws_witness :
    checkAuth lemonWorld Reply.throws = ⟨lemonWorld, some false⟩ ∧
    ((checkAuth lemonSession (Reply.response 401 none)).value = some false ∧
      (checkAuth lemonSession (Reply.response 401 none)).world.store.token = none ∧
      (checkAuth lemonSession (Reply.response 401 none)).world.store.customer = none ∧
      isLoggedIn (checkAuth lemonSession (Reply.response 401 none)).world.store = false) ∧
    (checkAuth lemonSession (Reply.response 200 (some {}))).world.store.token = some "tok" :=
  ⟨(checkAuth_never_throws lemonWorld Reply.throws).2.1 rfl,
   (checkAuth_never_throws lemonSession (Reply.response 401 none)).2.2.1 rfl
      (Or.inr ⟨401, none, rfl, Or.inl rfl⟩),
   ((checkAuth_never_throws lemonSession (Reply.response 200 (some {}))).2.2.2 rfl).2.2⟩

end CustomerAuth

namespace CustomerAuth

/-! ## getCartTotal and getCartCount -/

theorem foldl_total (cart : Cart) (acc : Int) (hp : ∀ e ∈ cart, e.price.isSome = true) :
    cart.foldl
      (fun total item =>
        match total, item.price with
        | some t, some p => some (t + p * item.quantity)
        | _, _ => none)
      (some acc) = some (acc + (cart.map fun e => e.price.getD 0 * e.quantity).sum) := by
  induction cart generalizing acc with
  | nil => simp
  | cons x xs ih =>
    obtain ⟨p, hx⟩ := Option.isSome_iff_exists.mp (hp x (List.mem_cons_self _ _))
    have hxs : ∀ e ∈ xs, e.price.isSome = true := fun e he => hp e (List.mem_cons_of_mem _ he)
    simp only [List.foldl_cons, hx, List.map_cons, List.sum_cons, Option.getD_some]
    rw [ih _ hxs]
    congr 1
    ring

theorem foldl_count (cart : Cart) (acc : Int) :
    cart.foldl (fun count item => count + item.quantity) acc
      = acc + (cart.map fun e => e.quantity).sum := by
  induction cart generalizing acc with
  | nil => simp
  | cons x xs ih =>
    simp only [List.foldl_cons, List.map_cons, List.sum_cons]
    rw [ih]
    ring

/-- C12: for a cart passed explicitly whose lines all carry a price, whatever is
stored, `getCartTotal` is the sum of `price * quantity` and `getCartCount` is the
sum of the quantities (no price is needed for the count); both are 0 for the empty
cart. -/
theorem getCartTotal_getCartCount_sum (s : Storage) (cart : Cart)
    (hp : ∀ e ∈ cart, e.price.isSome = true) :
    getCartTotal s (some cart)
      = some (some (cart.map fun e => e.price.getD 0 * e.quantity).sum) ∧
    getCartCount s (some cart) = some (cart.map fun e => e.quantity).sum ∧
    getCartTotal s (some []) = some (some 0) ∧
    getCartCount s (some []) = some 0 := by
  refine ⟨?_, ?_, rfl, rfl⟩
  · unfold getCartTotal
    simp only [foldl_total cart 0 hp, zero_add]
  · unfold getCartCount
    simp only [foldl_count cart 0, zero_add]

/-- Witness for C12: the example of the specification, total 25 and count 3, with
another cart stored. -/
theorem getCartTotal_getCartCount_sum_witness :
    getCartTotal lemonWorld.store (some pricedCart) = some (some 25) ∧
    getCartCount lemonWorld.store (some pricedCart) = some 3 :=
  ⟨(getCartTotal_getCartCount_sum lemonWorld.store pricedCart (by decide)).1,
   (getCartTotal_getCartCount_sum lemonWorld.store pricedCart (by decide)).2.1⟩

end CustomerAuth

namespace CustomerAuth

/-! ## Positive quantities -/

/-- C13, the failing inputs: `lemonCart` has positive quantities; `addToCart` of its
own product and flavour with quantity -5 leaves that line with quantity -4, and
`addToCart` of a new product line with quantity -1 appends a line of quantity -1. -/
theorem addToCart_negative_quantity :
    positiveQuantities lemonCart ∧
    getLocalCart (addToCart lemonWorld negativeLemonItem).world.store =
      some [{ productSlug := some "electrolyte", flavour := some "lemon", quantity := -4 }] ∧
    ¬ positiveQuantities
      [{ productSlug := some "electrolyte", flavour := some "lemon", quantity := -4 }] ∧
    getLocalCart (addToCart lemonWorld negativeBerryItem).world.store =
      some [{ productSlug := some "electrolyte", flavour := some "lemon", quantity := 1 },
            { productSlug := some "electrolyte", flavour := some "berry", quantity := -1 }] ∧
    ¬ positiveQuantities
      [{ productSlug := some "electrolyte", flavour := some "lemon", quantity := 1 },
       { productSlug := some "electrolyte", flavour := some "berry", quantity := -1 }] := by
  decide

theorem positiveQuantities_modify (C : Cart) (f : CartItem → CartItem) (n : Nat)
    (hpos : positiveQuantities C) (hf : ∀ e ∈ C, 1 ≤ (f e).quantity) :
    positiveQuantities (C.modify f n) := by
  induction C generalizing n with
  | nil => cases n <;> exact hpos
  | cons x xs ih =>
    have hx : 1 ≤ x.quantity := hpos x (List.mem_cons_self _ _)
    have hxs : positiveQuantities xs := fun e he => hpos e (List.mem_cons_of_mem _ he)
    cases n with
    | zero =>
      intro e he
      have he1 : e ∈ f x :: xs := he
      rcases List.mem_cons.mp he1 with h | h
      · rw [h]
        exact hf x (List.mem_cons_self _ _)
      · exact hxs e h
    | succ m =>
      intro e he
      rw [List.modify_succ_cons] at he
      rcases List.mem_cons.mp he with h | h
      · rw [h]
        exact hx
      · exact ih m hxs (fun e he => hf e (List.mem_cons_of_mem _ he)) e h

/-- The operation `updateCartItem`, and with it `removeFromCart`, keeps quantities
positive, for every index and quantity. -/
theorem updateCartItem_positiveQuantities (w : World) (C : Cart) (i q : Int)
    (hC : getLocalCart w.store = some C) (hpos : positiveQuantities C) :
    ∃ C1, getLocalCart (updateCartItem w i q).world.store = some C1 ∧
      positiveQuantities C1 := by
  by_cases hr : i < 0 ∨ i ≥ C.length
  · refine ⟨C, ?_, hpos⟩
    unfold updateCartItem
    rw [hC]
    simp only [if_pos hr, hC]
  · obtain ⟨_, hst⟩ := updateCartItem_in_range w C i q hC hr
    refine ⟨_, by unfold getLocalCart; rw [hst], ?_⟩
    by_cases hq : q ≤ 0
    · rw [if_pos hq]
      intro e he
      exact hpos e ((List.eraseIdx_sublist C i.toNat).subset he)
    · rw [if_neg hq]
      exact positiveQuantities_modify C _ _ hpos (fun _ _ => by show 1 ≤ q; omega)

/-- The operation `addToCart` keeps quantities positive for an item whose quantity
is absent or not negative. -/
theorem addToCart_positiveQuantities_of_nonneg (w : World) (C : Cart) (item : Item)
    (hC : getLocalCart w.store = some C) (hpos : positiveQuantities C)
    (hq : ∀ q, item.quantity = some q → 0 ≤ q) :
    ∃ C1, getLocalCart (addToCart w item).world.store = some C1 ∧
      positiveQuantities C1 := by
  have h1 : 1 ≤ quantityOrOne item.quantity := by
    unfold quantityOrOne
    cases hi : item.quantity with
    | none => simp
    | some q =>
      have := hq q hi
      by_cases h0 : q = 0
      · simp [h0]
      · simp only [h0, if_false]
        omega
  cases hk : findIndex
      (fun i => i.productSlug == item.productSlug && i.flavour == item.flavour) C with
  | none =>
    obtain ⟨hv, hst⟩ := addToCart_absent w C item hC hk
    rw [hv] at hst
    refine ⟨_, hst, ?_⟩
    intro e he
    rcases List.mem_append.mp he with he | he
    · exact hpos e he
    · rw [List.mem_singleton] at he
      rw [he]
      exact h1
  | some k =>
    obtain ⟨hv, hst⟩ := addToCart_present w C item k hC hk
    rw [hv] at hst
    refine ⟨_, hst, ?_⟩
    exact positiveQuantities_modify C _ _ hpos (fun e he => by
      have := hpos e he
      show 1 ≤ e.quantity + quantityOrOne item.quantity
      omega)

/-! ## Without a session -/

/-- C14: while `isLoggedIn()` is false, for a stored local cart `L` and every
argument and reply, none of the cart operations adds a request; `initCart` and
`fetchCart` resolve with `L` and leave the world as it was; `clearCart` resolves
with the empty cart and leaves the empty cart stored. -/
theorem anonymous_cart_offline (w : World) (L : Cart)
    (hanon : isLoggedIn w.store = false) (hL : getLocalCart w.store = some L)
    (getReply putReply : Reply CartBody) (deleteReply : Reply Unit)
    (cart : Option Cart) (item : Item) (index quantity : Int) :
    (initCart w getReply putReply = ⟨w, some L⟩ ∧
      fetchCart w getReply putReply = ⟨w, some L⟩) ∧
    (syncCartToServer w cart putReply).world.requests = w.requests ∧
    (addToCart w item).world.requests = w.requests ∧
    (updateCartItem w index quantity).world.requests = w.requests ∧
    (removeFromCart w index).world.requests = w.requests ∧
    ((clearCart w deleteReply).world.requests = w.requests ∧
      (clearCart w deleteReply).value = some [] ∧
      getLocalCart (clearCart w deleteReply).world.store = some []) := by
  have hsave : ∀ c, isLoggedIn (saveLocalCart w c).store = false := fun _ => hanon
  refine ⟨⟨?_, ?_⟩, ?_, ?_, ?_, ?_, ?_⟩
  · unfold initCart
    simp only [hanon, Bool.false_eq_true, if_false, hL]
  · unfold fetchCart
    simp only [hanon, Bool.not_false, if_true, hL]
  · unfold syncCartToServer
    simp only [hanon, Bool.not_false, if_true]
    cases cart <;> rfl
  · unfold addToCart
    rw [hL]
    simp only [hsave, Bool.false_eq_true, if_false]
    rfl
  · unfold updateCartItem
    rw [hL]
    by_cases hr : index < 0 ∨ index ≥ L.length
    · simp only [if_pos hr]
    · simp only [if_neg hr, hsave, Bool.false_eq_true, if_false]
      rfl
  · unfold removeFromCart updateCartItem
    rw [hL]
    by_cases hr : index < 0 ∨ index ≥ L.length
    · simp only [if_pos hr]
    · simp only [if_neg hr, hsave, Bool.false_eq_true, if_false]
      rfl
  · unfold clearCart
    simp only [hsave, Bool.false_eq_true, if_false]
    refine ⟨?_, ?_, ?_⟩ <;> first | rfl | trivial

/-- Witness for C14: `lemonCart` stored and nobody logged in. -/
theorem anonymous_cart_offline_witness :
    fetchCart lemonWorld Reply.throws Reply.throws = ⟨lemonWorld, some lemonCart⟩ ∧
    (addToCart lemonWorld berryItem).world.requests = [] ∧
    (clearCart lemonWorld Reply.throws).world.requests = [] :=
  ⟨(anonymous_cart_offline lemonWorld lemonCart rfl rfl Reply.throws Reply.throws
      Reply.throws none berryItem 0 0).1.2,
   (anonymous_cart_offline lemonWorld lemonCart rfl rfl Reply.throws Reply.throws
      Reply.throws none berryItem 0 0).2.2.1,
   (anonymous_cart_offline lemonWorld lemonCart rfl rfl Reply.throws Reply.throws
      Reply.throws none berryItem 0 0).2.2.2.2.2.1⟩

end CustomerAuth

namespace CustomerAuth

/-! ## sendOTP -/

/-- C11 as stated fails: `123` is not a valid mobile, and `sendOTP` issues the
request for it and resolves; `handleResendOTP` on the fresh modal, where
`currentMobile` is the empty string, issues the request as well. -/
theorem sendOTP_sends_invalid_mobile :
    jsLength "123" ≠ 10 ∧ matchesIndianMobile "123" = false ∧
    (sendOTP {} "123" "whatsapp" (Reply.response 200 (some {}))).world.requests
      = [⟨Method.POST, "/send-otp", none, Payload.sendOtp "123" "whatsapp"⟩] ∧
    (sendOTP {} "123" "whatsapp" (Reply.response 200 (some {}))).result
      = Settled.resolved {} ∧
    (handleResendOTP {} (Reply.response 200 (some {}))).world.requests
      = [⟨Method.POST, "/send-otp", none, Payload.sendOtp "" "whatsapp"⟩] := by
  decide

/-- Every call of `sendOTP` issues the request, whatever the mobile. -/
theorem sendOTP_requests (w : World) (mobile channel : String) (reply : Reply OtpBody) :
    (sendOTP w mobile channel reply).world
      = w.send ⟨Method.POST, "/send-otp", none, Payload.sendOtp mobile channel⟩ := by
  unfold sendOTP
  cases reply with
  | throws => rfl
  | response s b =>
    cases b with
    | none => rfl
    | some d => by_cases hs : isOk s = true <;> simp [hs]

/-- A mobile field that fails one of the two tests stops `handleSendOTP` before
any call: the world is as before and only the error is shown. -/
theorem handleSendOTP_rejects (p : Page) (reply : Reply OtpBody)
    (hbad : ¬ (jsLength (jsTrim p.ui.loginMobile) = 10 ∧
      matchesIndianMobile (jsTrim p.ui.loginMobile) = true)) :
    (handleSendOTP p reply).world = p.world ∧
    ∃ text, (handleSendOTP p reply).ui = showError p.ui (ErrorText.text text) := by
  unfold handleSendOTP
  by_cases h10 : jsLength (jsTrim p.ui.loginMobile) = 10
  · have hm : matchesIndianMobile (jsTrim p.ui.loginMobile) = false := by
      cases h : matchesIndianMobile (jsTrim p.ui.loginMobile)
      · rfl
      · exact absurd ⟨h10, h⟩ hbad
    have hne : jsTrim p.ui.loginMobile ≠ "" := by
      intro h
      rw [h] at h10
      exact absurd h10 (by decide)
    simp only [hne, h10, hm, ne_eq, not_true_eq_false, or_self, if_false, Bool.not_false,
      if_true]
    exact ⟨trivial, _, rfl⟩
  · simp only [h10, ne_eq, not_false_eq_true, or_true, if_true]
    exact ⟨trivial, _, rfl⟩

/-- A mobile field that passes both tests makes `handleSendOTP` issue the request. -/
theorem handleSendOTP_accepts (p : Page) (reply : Reply OtpBody)
    (h10 : jsLength (jsTrim p.ui.loginMobile) = 10)
    (hm : matchesIndianMobile (jsTrim p.ui.loginMobile) = true) :
    (handleSendOTP p reply).world = p.world.send
      ⟨Method.POST, "/send-otp", none,
        Payload.sendOtp (jsTrim p.ui.loginMobile) p.ui.otpChannel⟩ := by
  have hne : jsTrim p.ui.loginMobile ≠ "" := by
    intro h
    rw [h] at h10
    exact absurd h10 (by decide)
  have hw := sendOTP_requests p.world (jsTrim p.ui.loginMobile) p.ui.otpChannel reply
  unfold handleSendOTP
  simp only [hne, h10, hm, ne_eq, not_true_eq_false, or_self, if_false, Bool.not_true,
    Bool.false_eq_true]
  cases hr : (sendOTP p.world (jsTrim p.ui.loginMobile) p.ui.otpChannel reply).result with
  | resolved v => simp only [hw, hr]
  | rejected e => simp only [hw, hr]

/-- The resend path issues the request for `currentMobile`, whatever it is. -/
theorem handleResendOTP_requests (p : Page) (reply : Reply OtpBody) :
    (handleResendOTP p reply).world = p.world.send
      ⟨Method.POST, "/send-otp", none,
        Payload.sendOtp p.ui.currentMobile p.ui.otpChannel⟩ := by
  have hw := sendOTP_requests p.world p.ui.currentMobile p.ui.otpChannel reply
  unfold handleResendOTP
  cases hr : (sendOTP p.world p.ui.currentMobile p.ui.otpChannel reply).result with
  | resolved v =>
    simp only [hw, hr]
    by_cases h : (startResendTimer p.ui).2 = true
    · rw [if_pos h]
    · rw [if_neg h]
  | rejected e => simp only [hw, hr]

/-- C11, as amended: `sendOTP` does not validate: for every mobile it issues the
`POST /send-otp`. The validation is in `handleSendOTP`: when the trimmed mobile
field is not 10 characters long matching `[6-9]` and nine digits, it issues no
request, leaves the world as it was and shows an error. `handleResendOTP` issues
the request with `currentMobile` as it is. -/
theorem sendOTP_validated_by_caller :
    (∀ (w : World) (mobile channel : String) (reply : Reply OtpBody),
      (sendOTP w mobile channel reply).world.requests = w.requests ++
        [⟨Method.POST, "/send-otp", none, Payload.sendOtp mobile channel⟩]) ∧
    (∀ (p : Page) (reply : Reply OtpBody),
      ¬ (jsLength (jsTrim p.ui.loginMobile) = 10 ∧
        matchesIndianMobile (jsTrim p.ui.loginMobile) = true) →
      (handleSendOTP p reply).world = p.world ∧ (handleSendOTP p reply).ui.errorShown = true) ∧
    (∀ (p : Page) (reply : Reply OtpBody),
      (handleResendOTP p reply).world.requests = p.world.requests ++
        [⟨Method.POST, "/send-otp", none,
          Payload.sendOtp p.ui.currentMobile p.ui.otpChannel⟩]) := by
  refine ⟨?_, ?_, ?_⟩
  · intro w mobile channel reply
    rw [sendOTP_requests]
    rfl
  · intro p reply hbad
    obtain ⟨hw, text, hu⟩ := handleSendOTP_rejects p reply hbad
    exact ⟨hw, by rw [hu]; rfl⟩
  · intro p reply
    rw [handleResendOTP_requests]
    rfl

/-- Witness for C11: the mobile field `12345` is rejected by `handleSendOTP`. -/
theorem sendOTP_validated_by_caller_witness :
    (handleSendOTP { ui := { loginMobile := "12345" } } (Reply.response 200 (some {}))).world
      = {} ∧
    (handleSendOTP { ui := { loginMobile := "12345" } }
      (Reply.response 200 (some {}))).ui.errorShown = true :=
  sendOTP_validated_by_caller.2.1 { ui := { loginMobile := "12345" } }
    (Reply.response 200 (some {})) (by decide)

end CustomerAuth

namespace CustomerAuth

/-! ## handleVerifyOTP -/

theorem verifyOTP_world (w : World) (mobile otp : String) (name : Option String)
    (reply : Reply VerifyBody) :
    (verifyOTP w mobile otp name reply).world = w.send ⟨Method.POST, "/verify-otp", none,
      Payload.verifyOtp mobile otp (if truthy name then name else none)⟩ := by
  unfold verifyOTP
  cases reply with
  | throws => rfl
  | response s b =>
    cases b with
    | none => rfl
    | some d => by_cases hs : isOk s = true <;> simp [hs]

/-- The call `verifyOTP` throws when the request throws, the status is not 2xx, or
the body cannot be parsed. -/
theorem verifyOTP_rejected (w : World) (mobile otp : String) (name : Option String)
    (reply : Reply VerifyBody)
    (hfail : reply = Reply.throws ∨
      ∃ s b, reply = Reply.response s b ∧ (isOk s = false ∨ b = none)) :
    ∃ e, (verifyOTP w mobile otp name reply).result = Settled.rejected e := by
  unfold verifyOTP
  rcases hfail with h | ⟨s, b, h, hsb⟩
  · subst h
    exact ⟨_, rfl⟩
  · subst h
    cases b with
    | none => exact ⟨_, rfl⟩
    | some d =>
      rcases hsb with hs | hb
      · simp only [hs, Bool.not_false, if_true]
        exact ⟨_, rfl⟩
      · cases hb

theorem verifyOTP_resolved (w : World) (mobile otp : String) (name : Option String)
    (s : Nat) (r : VerifyBody) (hok : isOk s = true) :
    (verifyOTP w mobile otp name (Reply.response s (some r))).result = Settled.resolved r := by
  unfold verifyOTP
  simp only [hok, Bool.not_true, Bool.false_eq_true, if_false]

/-- What `handleVerifyOTP` does with six characters and a call that throws. -/
theorem handleVerifyOTP_rejected (p : Page) (reply : Reply VerifyBody) (e : ErrorText)
    (h6 : jsLength (String.join p.ui.otpDigits) = 6)
    (he : (verifyOTP p.world p.ui.currentMobile (String.join p.ui.otpDigits) none reply).result
      = Settled.rejected e) :
    handleVerifyOTP p reply =
      ⟨p.world.send ⟨Method.POST, "/verify-otp", none,
          Payload.verifyOtp p.ui.currentMobile (String.join p.ui.otpDigits) none⟩,
        setButtonLoading
          { showError (setButtonLoading p.ui Button.btnVerifyOTP true) e with
            otpDigits := p.ui.otpDigits.map fun _ => ""
            focus := some (Field.otpDigit 0) }
          Button.btnVerifyOTP false⟩ := by
  have hw := verifyOTP_world p.world p.ui.currentMobile (String.join p.ui.otpDigits) none reply
  unfold handleVerifyOTP
  simp only [h6, ne_eq, not_true_eq_false, if_false, he, hw]
  rfl

/-- What `handleVerifyOTP` does with six characters and a call that resolves. -/
theorem handleVerifyOTP_resolved (p : Page) (s : Nat) (r : VerifyBody)
    (h6 : jsLength (String.join p.ui.otpDigits) = 6) (hok : isOk s = true) :
    handleVerifyOTP p (Reply.response s (some r)) =
      ⟨{ p.world.send ⟨Method.POST, "/verify-otp", none,
            Payload.verifyOtp p.ui.currentMobile (String.join p.ui.otpDigits) none⟩ with
          store :=
            match r.customer with
            | some c => setCustomer (setToken p.world.store (r.token.getD "undefined")) c
            | none => setToken p.world.store (r.token.getD "undefined") },
        setButtonLoading
          (if r.needsName then goToNameStep (setButtonLoading p.ui Button.btnVerifyOTP true)
            else handleLoginSuccess (setButtonLoading p.ui Button.btnVerifyOTP true) r.customer)
          Button.btnVerifyOTP false⟩ := by
  have hw := verifyOTP_world p.world p.ui.currentMobile (String.join p.ui.otpDigits) none
    (Reply.response s (some r))
  have hr := verifyOTP_resolved p.world p.ui.currentMobile (String.join p.ui.otpDigits) none
    s r hok
  unfold handleVerifyOTP
  simp only [h6, ne_eq, not_true_eq_false, if_false, hr, hw]
  rfl

/-- The fields `setButtonLoading` leaves alone. -/
theorem setButtonLoading_frame (u : Flow) (b : Button) (l : Bool) :
    (setButtonLoading u b l).otpDigits = u.otpDigits ∧
    (setButtonLoading u b l).focus = u.focus ∧
    (setButtonLoading u b l).stepMobile = u.stepMobile ∧
    (setButtonLoading u b l).stepOTP = u.stepOTP ∧
    (setButtonLoading u b l).stepName = u.stepName ∧
    (setButtonLoading u b l).modalShown = u.modalShown ∧
    (setButtonLoading u b l).invoked = u.invoked ∧
    (setButtonLoading u b l).errorShown = u.errorShown ∧
    (setButtonLoading u b l).currentMobile = u.currentMobile ∧
    (setButtonLoading u b l).timeouts = u.timeouts ∧
    (setButtonLoading u b l).onLoginSuccess = u.onLoginSuccess := by
  unfold setButtonLoading
  cases l <;> simp

/-- C15: six characters entered and a `verifyOTP` that fails (the request throws,
the status is not 2xx, or the body cannot be parsed): after `handleVerifyOTP`
every digit field is empty (and there are as many as before), the focus is on the
first digit field, the three steps are displayed as before, the modal is shown as
before, no callback has been invoked, an error is shown, and the storage, token
and customer included, is as before. -/
theorem handleVerifyOTP_failure (p : Page) (reply : Reply VerifyBody)
    (h6 : jsLength (String.join p.ui.otpDigits) = 6)
    (hfail : reply = Reply.throws ∨
      ∃ s b, reply = Reply.response s b ∧ (isOk s = false ∨ b = none)) :
    (handleVerifyOTP p reply).ui.otpDigits = List.replicate p.ui.otpDigits.length "" ∧
    (handleVerifyOTP p reply).ui.focus = some (Field.otpDigit 0) ∧
    ((handleVerifyOTP p reply).ui.stepMobile = p.ui.stepMobile ∧
      (handleVerifyOTP p reply).ui.stepOTP = p.ui.stepOTP ∧
      (handleVerifyOTP p reply).ui.stepName = p.ui.stepName ∧
      (handleVerifyOTP p reply).ui.modalShown = p.ui.modalShown) ∧
    (handleVerifyOTP p reply).ui.invoked = p.ui.invoked ∧
    (handleVerifyOTP p reply).ui.errorShown = true ∧
    (handleVerifyOTP p reply).world.store = p.world.store := by
  obtain ⟨e, he⟩ := verifyOTP_rejected p.world p.ui.currentMobile
    (String.join p.ui.otpDigits) none reply hfail
  rw [handleVerifyOTP_rejected p reply e h6 he]
  have hf := setButtonLoading_frame
    { showError (setButtonLoading p.ui Button.btnVerifyOTP true) e with
      otpDigits := p.ui.otpDigits.map fun _ => ""
      focus := some (Field.otpDigit 0) } Button.btnVerifyOTP false
  have hg := setButtonLoading_frame p.ui Button.btnVerifyOTP true
  obtain ⟨f1, f2, f3, f4, f5, f6, f7, f8, _⟩ := hf
  obtain ⟨_, _, g3, g4, g5, g6, g7, _⟩ := hg
  refine ⟨?_, ?_, ⟨?_, ?_, ?_, ?_⟩, ?_, ?_, rfl⟩
  · show (setButtonLoading _ _ _).otpDigits = _
    rw [f1]
    show List.map (fun _ => "") p.ui.otpDigits = _
    exact List.map_const' _ _
  · show (setButtonLoading _ _ _).focus = _
    rw [f2]
  · show (setButtonLoading _ _ _).stepMobile = _
    rw [f3]
    exact g3
  · show (setButtonLoading _ _ _).stepOTP = _
    rw [f4]
    exact g4
  · show (setButtonLoading _ _ _).stepName = _
    rw [f5]
    exact g5
  · show (setButtonLoading _ _ _).modalShown = _
    rw [f6]
    exact g6
  · show (setButtonLoading _ _ _).invoked = _
    rw [f7]
    exact g7
  · show (setButtonLoading _ _ _).errorShown = _
    rw [f8]
    rfl

/-- Witness for C15: six digits typed on the OTP step, and a reply with status 400. -/
theorem handleVerifyOTP_failure_witness :
    (handleVerifyOTP otpTyped (Reply.response 400 (some {}))).ui.otpDigits
      = ["", "", "", "", "", ""] ∧
    (handleVerifyOTP otpTyped (Reply.response 400 (some {}))).ui.focus
      = some (Field.otpDigit 0) ∧
    (handleVerifyOTP otpTyped (Reply.response 400 (some {}))).ui.stepOTP = true :=
  ⟨(handleVerifyOTP_failure otpTyped (Reply.response 400 (some {})) (by decide)
      (Or.inr ⟨400, some {}, rfl, Or.inl rfl⟩)).1,
   (handleVerifyOTP_failure otpTyped (Reply.response 400 (some {})) (by decide)
      (Or.inr ⟨400, some {}, rfl, Or.inl rfl⟩)).2.1,
   (handleVerifyOTP_failure otpTyped (Reply.response 400 (some {})) (by decide)
      (Or.inr ⟨400, some {}, rfl, Or.inl rfl⟩)).2.2.1.2.1⟩

end CustomerAuth

namespace CustomerAuth

/-! ## Validation in the handlers -/

/-- The fields `showError` leaves alone, and the one it sets. -/
theorem showError_frame (u : Flow) (e : ErrorText) :
    (showError u e).errorShown = true ∧
    (showError u e).stepMobile = u.stepMobile ∧
    (showError u e).stepOTP = u.stepOTP ∧
    (showError u e).stepName = u.stepName ∧
    (showError u e).currentMobile = u.currentMobile :=
  ⟨rfl, rfl, rfl, rfl, rfl⟩

theorem handleVerifyOTP_rejects (p : Page) (reply : Reply VerifyBody)
    (h6 : jsLength (String.join p.ui.otpDigits) ≠ 6) :
    handleVerifyOTP p reply =
      { p with ui := showError p.ui (ErrorText.text "Please enter the complete 6-digit OTP") } := by
  unfold handleVerifyOTP
  simp only [h6, ne_eq, not_false_eq_true, if_true]

theorem handleVerifyOTP_accepts (p : Page) (reply : Reply VerifyBody)
    (h6 : jsLength (String.join p.ui.otpDigits) = 6) :
    (handleVerifyOTP p reply).world.requests = p.world.requests ++
      [⟨Method.POST, "/verify-otp", none,
        Payload.verifyOtp p.ui.currentMobile (String.join p.ui.otpDigits) none⟩] := by
  have hw := verifyOTP_world p.world p.ui.currentMobile (String.join p.ui.otpDigits) none reply
  unfold handleVerifyOTP
  simp only [h6, ne_eq, not_true_eq_false, if_false]
  cases hr : (verifyOTP p.world p.ui.currentMobile (String.join p.ui.otpDigits) none
      reply).result with
  | resolved v =>
    simp only [hr, hw]
    rfl
  | rejected e =>
    simp only [hr, hw]
    rfl

theorem updateName_requests (w : World) (name : String) (reply : Reply CustomerBody) :
    (updateName w name reply).world.requests = w.requests ++
      [⟨Method.POST, "/update-name", getAuthHeaders w.store, Payload.name name⟩] := by
  unfold updateName
  cases reply with
  | throws => rfl
  | response s b =>
    cases b with
    | none => rfl
    | some d =>
      by_cases hs : isOk s = true
      · cases hc : d.customer <;> simp [hs, hc, World.send]
      · simp [hs, World.send]

theorem handleSaveName_rejects (p : Page) (reply : Reply CustomerBody)
    (hn : jsTrim p.ui.loginName = "") :
    handleSaveName p reply =
      { p with ui := showError p.ui (ErrorText.text "Please enter your name") } := by
  unfold handleSaveName
  simp only [hn, if_true]

theorem handleSaveName_accepts (p : Page) (reply : Reply CustomerBody)
    (hn : jsTrim p.ui.loginName ≠ "") :
    (handleSaveName p reply).world.requests = p.world.requests ++
      [⟨Method.POST, "/update-name", getAuthHeaders p.world.store,
        Payload.name (jsTrim p.ui.loginName)⟩] := by
  have hw := updateName_requests p.world (jsTrim p.ui.loginName) reply
  unfold handleSaveName
  simp only [hn, if_false]
  cases hr : (updateName p.world (jsTrim p.ui.loginName) reply).value with
  | some v =>
    simp only [hr]
    exact hw
  | none =>
    simp only [hr]
    exact hw

/-- C16: `handleSendOTP` issues `POST /send-otp` exactly when the trimmed mobile
field has 10 characters and matches `^[6-9]\d{9}$`; `handleVerifyOTP` issues
`POST /verify-otp` exactly when the digit fields joined have length 6;
`handleSaveName` issues `POST /update-name` exactly when the trimmed name is not
empty. When a handler rejects its input, the world (requests, token and customer
included) is as before, an error is shown, and the displayed steps and
`currentMobile` are as before. -/
theorem handlers_validate_input (p : Page) (sendReply : Reply OtpBody)
    (verifyReply : Reply VerifyBody) (nameReply : Reply CustomerBody) :
    (((handleSendOTP p sendReply).world.requests = p.world.requests ++
        [⟨Method.POST, "/send-otp", none,
          Payload.sendOtp (jsTrim p.ui.loginMobile) p.ui.otpChannel⟩]
      ↔ (jsLength (jsTrim p.ui.loginMobile) = 10 ∧
          matchesIndianMobile (jsTrim p.ui.loginMobile) = true)) ∧
      (¬ (jsLength (jsTrim p.ui.loginMobile) = 10 ∧
          matchesIndianMobile (jsTrim p.ui.loginMobile) = true) →
        (handleSendOTP p sendReply).world = p.world ∧
        (handleSendOTP p sendReply).ui.errorShown = true ∧
        (handleSendOTP p sendReply).ui.stepMobile = p.ui.stepMobile ∧
        (handleSendOTP p sendReply).ui.stepOTP = p.ui.stepOTP ∧
        (handleSendOTP p sendReply).ui.stepName = p.ui.stepName ∧
        (handleSendOTP p sendReply).ui.currentMobile = p.ui.currentMobile)) ∧
    (((handleVerifyOTP p verifyReply).world.requests = p.world.requests ++
        [⟨Method.POST, "/verify-otp", none,
          Payload.verifyOtp p.ui.currentMobile (String.join p.ui.otpDigits) none⟩]
      ↔ jsLength (String.join p.ui.otpDigits) = 6) ∧
      (jsLength (String.join p.ui.otpDigits) ≠ 6 →
        (handleVerifyOTP p verifyReply).world = p.world ∧
        (handleVerifyOTP p verifyReply).ui.errorShown = true ∧
        (handleVerifyOTP p verifyReply).ui.stepMobile = p.ui.stepMobile ∧
        (handleVerifyOTP p verifyReply).ui.stepOTP = p.ui.stepOTP ∧
        (handleVerifyOTP p verifyReply).ui.stepName = p.ui.stepName ∧
        (handleVerifyOTP p verifyReply).ui.currentMobile = p.ui.currentMobile)) ∧
    (((handleSaveName p nameReply).world.requests = p.world.requests ++
        [⟨Method.POST, "/update-name", getAuthHeaders p.world.store,
          Payload.name (jsTrim p.ui.loginName)⟩]
      ↔ jsTrim p.ui.loginName ≠ "") ∧
      (jsTrim p.ui.loginName = "" →
        (handleSaveName p nameReply).world = p.world ∧
        (handleSaveName p nameReply).ui.errorShown = true ∧
        (handleSaveName p nameReply).ui.stepMobile = p.ui.stepMobile ∧
        (handleSaveName p nameReply).ui.stepOTP = p.ui.stepOTP ∧
        (handleSaveName p nameReply).ui.stepName = p.ui.stepName ∧
        (handleSaveName p nameReply).ui.currentMobile = p.ui.currentMobile)) := by
  have hself : ∀ (l : List Request) (r : Request), l ≠ l ++ [r] := by
    intro l r h
    have := congrArg List.length h
    simp at this
  refine ⟨⟨⟨?_, ?_⟩, ?_⟩, ⟨⟨?_, ?_⟩, ?_⟩, ⟨⟨?_, ?_⟩, ?_⟩⟩
  · intro h
    by_contra hbad
    rw [(handleSendOTP_rejects p sendReply hbad).1] at h
    exact hself _ _ h
  · intro hv
    rw [handleSendOTP_accepts p sendReply hv.1 hv.2]
    rfl
  · intro hbad
    obtain ⟨hw, text, hu⟩ := handleSendOTP_rejects p sendReply hbad
    rw [hu]
    exact ⟨hw, showError_frame _ _⟩
  · intro h
    by_contra h6
    rw [handleVerifyOTP_rejects p verifyReply h6] at h
    exact hself _ _ h
  · intro h6
    exact handleVerifyOTP_accepts p verifyReply h6
  · intro h6
    rw [handleVerifyOTP_rejects p verifyReply h6]
    exact ⟨rfl, showError_frame _ _⟩
  · intro h hn
    rw [handleSaveName_rejects p nameReply hn] at h
    exact hself _ _ h
  · intro hn
    exact handleSaveName_accepts p nameReply hn
  · intro hn
    rw [handleSaveName_rejects p nameReply hn]
    exact ⟨rfl, showError_frame _ _⟩

/-- Witness for C16: `mobileTyped` has a valid mobile and no digits or name typed. -/
theorem handlers_validate_input_witness :
    (handleSendOTP mobileTyped (Reply.response 200 (some {}))).world.requests
      = [⟨Method.POST, "/send-otp", none, Payload.sendOtp "9876543210" "whatsapp"⟩] ∧
    (handleVerifyOTP mobileTyped Reply.throws).world = mobileTyped.world ∧
    (handleSaveName mobileTyped Reply.throws).ui.errorShown = true :=
  ⟨(handlers_validate_input mobileTyped (Reply.response 200 (some {})) Reply.throws
      Reply.throws).1.1.mpr (by decide),
   ((handlers_validate_input mobileTyped (Reply.response 200 (some {})) Reply.throws
      Reply.throws).2.1.2 (by decide)).1,
   ((handlers_validate_input mobileTyped (Reply.response 200 (some {})) Reply.throws
      Reply.throws).2.2.2 (by decide)).2.1⟩

end CustomerAuth

namespace CustomerAuth

/-! ## Successful verification -/

/-- What `handleLoginSuccess` does to the modal, the timeouts and the callback. -/
theorem handleLoginSuccess_frame (u : Flow) (customer : Option Customer) :
    (handleLoginSuccess u customer).modalShown = false ∧
    (handleLoginSuccess u customer).timeouts = u.timeouts ++ [(300, Deferred.resetModal)] ∧
    (handleLoginSuccess u customer).invoked
      = (match u.onLoginSuccess with
        | some f => u.invoked ++ [(f, customer)]
        | none => u.invoked) := by
  unfold handleLoginSuccess closeModal
  cases h : u.onLoginSuccess <;> simp [h]

/-- C17: six characters entered and `verifyOTP` resolved with `r` (a 2xx reply with
the parsed body `r`). The token stored is `r.token` (the text `undefined` for a
result without one), the customer stored is `r.customer` when present and the
one stored before otherwise. With `r.needsName` the name step is the one
displayed, the modal is shown as before and no callback is invoked. Without it the
modal is closed, `resetModal` is scheduled, and the callback registered by
`showModal`, when there is one, is invoked once more than before, with
`r.customer`. -/
theorem handleVerifyOTP_success (p : Page) (s : Nat) (r : VerifyBody)
    (h6 : jsLength (String.join p.ui.otpDigits) = 6) (hok : isOk s = true) :
    ((handleVerifyOTP p (Reply.response s (some r))).world.store.token
        = some (r.token.getD "undefined") ∧
      (handleVerifyOTP p (Reply.response s (some r))).world.store.customer
        = (match r.customer with
          | some c => some c
          | none => p.world.store.customer)) ∧
    (r.needsName = true →
      (handleVerifyOTP p (Reply.response s (some r))).ui.stepName = true ∧
      (handleVerifyOTP p (Reply.response s (some r))).ui.stepOTP = false ∧
      (handleVerifyOTP p (Reply.response s (some r))).ui.stepMobile = false ∧
      (handleVerifyOTP p (Reply.response s (some r))).ui.modalShown = p.ui.modalShown ∧
      (handleVerifyOTP p (Reply.response s (some r))).ui.invoked = p.ui.invoked) ∧
    (r.needsName = false →
      (handleVerifyOTP p (Reply.response s (some r))).ui.modalShown = false ∧
      (handleVerifyOTP p (Reply.response s (some r))).ui.timeouts
        = p.ui.timeouts ++ [(300, Deferred.resetModal)] ∧
      (handleVerifyOTP p (Reply.response s (some r))).ui.invoked
        = (match p.ui.onLoginSuccess with
          | some f => p.ui.invoked ++ [(f, r.customer)]
          | none => p.ui.invoked)) := by
  rw [handleVerifyOTP_resolved p s r h6 hok]
  obtain ⟨_, _, g3, g4, g5, g6, g7, _, _, g10, g11⟩ :=
    setButtonLoading_frame p.ui Button.btnVerifyOTP true
  refine ⟨⟨?_, ?_⟩, ?_, ?_⟩
  · cases r.customer <;> rfl
  · cases r.customer <;> rfl
  · intro hn
    simp only [hn, if_true]
    obtain ⟨_, _, f3, f4, f5, f6, f7, _⟩ := setButtonLoading_frame
      (goToNameStep (setButtonLoading p.ui Button.btnVerifyOTP true)) Button.btnVerifyOTP false
    refine ⟨?_, ?_, ?_, ?_, ?_⟩
    · rw [f5]
      rfl
    · rw [f4]
      rfl
    · rw [f3]
      rfl
    · rw [f6]
      exact g6
    · rw [f7]
      exact g7
  · intro hn
    simp only [hn, Bool.false_eq_true, if_false]
    obtain ⟨_, _, _, _, _, f6, f7, _, _, f10, _⟩ := setButtonLoading_frame
      (handleLoginSuccess (setButtonLoading p.ui Button.btnVerifyOTP true) r.customer)
      Button.btnVerifyOTP false
    obtain ⟨l1, l2, l3⟩ := handleLoginSuccess_frame
      (setButtonLoading p.ui Button.btnVerifyOTP true) r.customer
    refine ⟨?_, ?_, ?_⟩
    · rw [f6, l1]
    · rw [f10, l2, g10]
    · rw [f7, l3, g11, g7]

/-- Witness for C17: six digits typed on the OTP step; a result that needs a name,
and one that does not, with the callback `goToCheckout` registered. -/
theorem handleVerifyOTP_success_witness :
    (handleVerifyOTP otpTyped
      (Reply.response 200 (some { token := some "t1", needsName := true }))).ui.stepName
      = true ∧
    (handleVerifyOTP otpTyped
      (Reply.response 200 (some { token := some "t1" }))).world.store.token = some "t1" ∧
    (handleVerifyOTP otpTyped
      (Reply.response 200 (some { token := some "t1" }))).ui.invoked
      = [("goToCheckout", none)] :=
  ⟨((handleVerifyOTP_success otpTyped 200 { token := some "t1", needsName := true }
      (by decide) rfl).2.1 rfl).1,
   (handleVerifyOTP_success otpTyped 200 { token := some "t1" } (by decide) rfl).1.1,
   ((handleVerifyOTP_success otpTyped 200 { token := some "t1" } (by decide) rfl).2.2 rfl).2.2⟩

end CustomerAuth

namespace CustomerAuth

/-! ## The resend countdown -/

/-- C18 as stated fails: on the OTP step the countdown is running; after
`goToMobileStep` the mobile step is displayed and the same countdown is still
running, and the next second it fires again. -/
theorem goToMobileStep_countdown_runs_on :
    otpStep.ui.countdowns = [⟨1, 60⟩] ∧
    (goToMobileStep otpStep.ui).stepMobile = true ∧
    (goToMobileStep otpStep.ui).countdowns = [⟨1, 60⟩] ∧
    (tick (goToMobileStep otpStep.ui)).countdowns = [⟨1, 59⟩] := by
  decide

/-- The callback of an interval does not read or write what `goToMobileStep` sets. -/
theorem fire_goToMobileStep (u : Flow) (id : Nat) :
    fire (goToMobileStep u) id = goToMobileStep (fire u id) := by
  unfold fire
  have hc : (goToMobileStep u).countdowns = u.countdowns := rfl
  rw [hc]
  cases u.countdowns.find? fun c => c.id == id with
  | none => rfl
  | some c =>
    by_cases hs : c.seconds - 1 ≤ 0
    · simp only [hs, if_true]
      cases hr : u.resendTimerInterval <;> simp [goToMobileStep, clearInterval, hr]
    · simp only [hs, if_false]
      rfl

theorem foldl_fire_goToMobileStep (l : List Countdown) (u : Flow) :
    l.foldl (fun acc c => fire acc c.id) (goToMobileStep u)
      = goToMobileStep (l.foldl (fun acc c => fire acc c.id) u) := by
  induction l generalizing u with
  | nil => rfl
  | cons x xs ih =>
    simp only [List.foldl_cons]
    rw [fire_goToMobileStep, ih]

/-- C18, as amended: `goToMobileStep` displays the mobile step, hides the OTP step,
the name step and the error, and does not touch the resend timer: the running
countdowns and the handle in `resendTimerInterval` are as before, and a second
that passes does to the flow what it would have done without the call. -/
theorem goToMobileStep_steps (u : Flow) :
    (goToMobileStep u).stepMobile = true ∧
    (goToMobileStep u).stepOTP = false ∧
    (goToMobileStep u).stepName = false ∧
    (goToMobileStep u).errorShown = false ∧
    (goToMobileStep u).countdowns = u.countdowns ∧
    (goToMobileStep u).resendTimerInterval = u.resendTimerInterval ∧
    tick (goToMobileStep u) = goToMobileStep (tick u) := by
  refine ⟨rfl, rfl, rfl, rfl, rfl, rfl, ?_⟩
  unfold tick
  exact foldl_fire_goToMobileStep u.countdowns u

end CustomerAuth

namespace CustomerAuth

/-- C19, the failing input: after the 60 seconds of the countdown the resend button
is enabled and the element `#resendTimer` is gone. A resend whose `sendOTP`
succeeds then issues the request, disables the button and stops with a
`TypeError` in `startResendTimer`: the counter does not show 60, no countdown is
running, the digit fields still hold what was typed, the error is shown, and
the button is still disabled 60 seconds later. -/
theorem handleResendOTP_after_countdown :
    (countdownOver.ui.resendDisabled = false ∧ countdownOver.ui.resendTimer = none ∧
      countdownOver.ui.countdowns = []) ∧
    (handleResendOTP countdownOver (Reply.response 200 (some {}))).world.requests
      = [⟨Method.POST, "/send-otp", none, Payload.sendOtp "9876543210" "whatsapp"⟩,
         ⟨Method.POST, "/send-otp", none, Payload.sendOtp "9876543210" "whatsapp"⟩] ∧
    (handleResendOTP countdownOver (Reply.response 200 (some {}))).ui.resendDisabled = true ∧
    (handleResendOTP countdownOver (Reply.response 200 (some {}))).ui.resendTimer = none ∧
    (handleResendOTP countdownOver (Reply.response 200 (some {}))).ui.countdowns = [] ∧
    (handleResendOTP countdownOver (Reply.response 200 (some {}))).ui.otpDigits
      = ["1", "2", "", "", "", ""] ∧
    (handleResendOTP countdownOver (Reply.response 200 (some {}))).ui.errorText
      = some ErrorText.native ∧
    (tick^[60] (handleResendOTP countdownOver
      (Reply.response 200 (some {}))).ui).resendDisabled = true := by
  decide

/-- A second of a flow whose only countdown is the registered one. -/
theorem tick_single (u : Flow) (id : Nat) (n : Int)
    (hc : u.countdowns = [⟨id, n⟩]) (hv : u.resendTimerInterval = some id) :
    tick u =
      if n - 1 ≤ 0 then { u with countdowns := [], resendDisabled := false, resendTimer := none }
      else { u with
        countdowns := [⟨id, n - 1⟩]
        resendTimer := u.resendTimer.map fun _ => n - 1 } := by
  have hfind : List.find? (fun c : Countdown => c.id == id) [⟨id, n⟩] = some ⟨id, n⟩ := by
    simp
  have hmap : List.map
      (fun d : Countdown => if d.id == id then { d with seconds := n - 1 } else d) [⟨id, n⟩]
      = [⟨id, n - 1⟩] := by
    simp
  have hfilter : List.filter (fun c : Countdown => c.id != id) [⟨id, n - 1⟩] = [] := by
    simp
  unfold tick
  rw [hc]
  show fire u id = _
  unfold fire
  rw [hc, hfind]
  simp only [hmap]
  by_cases hs : n - 1 ≤ 0
  · rw [if_pos hs, if_pos hs]
    simp only [hv, clearInterval, hfilter]
  · rw [if_neg hs, if_neg hs]

/-- The countdown that `startResendTimer` starts: for 59 seconds it is the only one
running and the button stays disabled; the 60th second enables the button,
removes the counter and stops the countdown, and later seconds change nothing. -/
theorem countdown_sixty (u : Flow) (id : Nat)
    (hc : u.countdowns = [⟨id, 60⟩]) (hv : u.resendTimerInterval = some id)
    (hd : u.resendDisabled = true) :
    (∀ k : Nat, k < 60 →
      (tick^[k] u).countdowns = [⟨id, 60 - (k : Int)⟩] ∧ (tick^[k] u).resendDisabled = true) ∧
    ((tick^[60] u).countdowns = [] ∧ (tick^[60] u).resendDisabled = false ∧
      (tick^[60] u).resendTimer = none) ∧
    (∀ j : Nat, tick^[60 + j] u = tick^[60] u) := by
  have hrun : ∀ k : Nat, k < 60 →
      (tick^[k] u).countdowns = [⟨id, 60 - (k : Int)⟩] ∧
      (tick^[k] u).resendTimerInterval = some id ∧
      (tick^[k] u).resendDisabled = true := by
    intro k
    induction k with
    | zero =>
      intro _
      simp [hc, hv, hd]
    | succ m ih =>
      intro hm
      obtain ⟨h1, h2, h3⟩ := ih (by omega)
      rw [Function.iterate_succ_apply', tick_single _ id (60 - (m : Int)) h1 h2]
      have hpos : ¬ (60 - (m : Int) - 1 ≤ 0) := by omega
      simp only [hpos, if_false]
      refine ⟨?_, h2, h3⟩
      simp only [Nat.cast_add, Nat.cast_one]
      congr 2
      omega
  obtain ⟨h1, h2, _⟩ := hrun 59 (by omega)
  have h60 : tick^[60] u =
      { tick^[59] u with countdowns := [], resendDisabled := false, resendTimer := none } := by
    rw [show (60 : Nat) = 59 + 1 from rfl, Function.iterate_succ_apply',
      tick_single _ id (60 - ((59 : Nat) : Int)) h1 h2]
    simp
  refine ⟨fun k hk => ⟨(hrun k hk).1, (hrun k hk).2.2⟩, ?_, ?_⟩
  · rw [h60]
    exact ⟨rfl, rfl, rfl⟩
  · intro j
    induction j with
    | zero => rfl
    | succ i ih =>
      rw [show 60 + (i + 1) = (60 + i) + 1 from rfl, Function.iterate_succ_apply', ih, h60]
      rfl

/-- While the element `#resendTimer` is in the document, a resend whose `sendOTP`
succeeds disables the button, shows 60, empties the digit fields, stops the
registered countdown and starts a new one of 60 seconds. -/
theorem handleResendOTP_restarts (p : Page) (s : Nat) (d : OtpBody) (n : Int)
    (hok : isOk s = true) (ht : p.ui.resendTimer = some n)
    (hone : ∀ c ∈ p.ui.countdowns, c.id ≠ 0 ∧ p.ui.resendTimerInterval = some c.id) :
    (handleResendOTP p (Reply.response s (some d))).ui.resendDisabled = true ∧
    (handleResendOTP p (Reply.response s (some d))).ui.resendTimer = some 60 ∧
    (handleResendOTP p (Reply.response s (some d))).ui.otpDigits
      = List.replicate p.ui.otpDigits.length "" ∧
    (handleResendOTP p (Reply.response s (some d))).ui.countdowns
      = [⟨p.ui.nextTimerId, 60⟩] ∧
    (handleResendOTP p (Reply.response s (some d))).ui.resendTimerInterval
      = some p.ui.nextTimerId := by
  have hr : (sendOTP p.world p.ui.currentMobile p.ui.otpChannel
      (Reply.response s (some d))).result = Settled.resolved d := by
    unfold sendOTP
    simp only [hok, Bool.not_true, Bool.false_eq_true, if_false]
  have hfilter : ∀ id, p.ui.resendTimerInterval = some id → id ≠ 0 →
      p.ui.countdowns.filter (fun c => c.id != id) = [] := by
    intro id hid _
    rw [List.filter_eq_nil_iff]
    intro c hcm
    have := (hone c hcm).2
    rw [hid] at this
    simp [Option.some.inj this]
  unfold handleResendOTP
  simp only [hr]
  unfold startResendTimer
  simp only [ht]
  cases hi : p.ui.resendTimerInterval with
  | none =>
    have hnil : p.ui.countdowns = [] := by
      cases hcs : p.ui.countdowns with
      | nil => rfl
      | cons c cs =>
        have := (hone c (by rw [hcs]; exact List.mem_cons_self _ _)).2
        rw [hi] at this
        cases this
    simp [hnil]
  | some id =>
    by_cases h0 : id = 0
    · have hnil : p.ui.countdowns = [] := by
        cases hcs : p.ui.countdowns with
        | nil => rfl
        | cons c cs =>
          obtain ⟨hne, hsome⟩ := hone c (by rw [hcs]; exact List.mem_cons_self _ _)
          rw [hi] at hsome
          exact absurd ((Option.some.inj hsome).symm.trans h0) hne
      simp [h0, hnil]
    · simp [h0, clearInterval, hfilter id hi h0]

end CustomerAuth
